import Mathlib

/-!
Shallow embedding of the building thermal simulation engine of the
Radiation-cooling-and-heating-calculation repository, together with proofs
settling the claims of its specification.

Conventions used throughout:
* Python floats are modelled as real numbers (`ℝ`); float rounding and
  overflow are not modelled.  The weather-table module of the material
  comparison tool only performs rational arithmetic and is modelled over `ℚ`.
* `numpy.clip`, Python `max`/`min` become `npClip`, `max`, `min`.
* Python `None`-able values become `Option`; `dict.get(key, default)` becomes
  `Option.getD`.
* Mutation of `Zone`/`Surface` dataclass fields becomes explicit state
  passing: a mutating method returns the updated record.
* Bounded `for`-loops with `break`-on-convergence become structural recursion
  on the remaining iteration count, returning early when the tolerance test
  succeeds, exactly as the source does.
-/

namespace RadSim

/-- Scalar `numpy.clip(x, lo, hi)`: `lo` if `x < lo`, `hi` if `x > hi`, else `x`
(for `lo ≤ hi` this is `max lo (min x hi)`). -/
noncomputable def npClip (x lo hi : ℝ) : ℝ := max lo (min x hi)

/-- ASCII lowercase of one character, as Python `str.lower` acts on the ASCII
letters appearing in this code base. -/
def lowerChar (c : Char) : Char :=
  if 65 ≤ c.toNat ∧ c.toNat ≤ 90 then Char.ofNat (c.toNat + 32) else c

/-- Python `s.lower()` for the ASCII strings used by the model. -/
def pyLower (s : String) : String := ⟨s.data.map lowerChar⟩

/-- Helper for substring search: does the second list start with the first? -/
def startsList : List Char → List Char → Bool
  | [], _ => true
  | _ :: _, [] => false
  | a :: as, b :: bs => a == b && startsList as bs

/-- Python `w in s` on strings (substring containment), on char lists. -/
def subList (w : List Char) : List Char → Bool
  | [] => w.isEmpty
  | c :: t => startsList w (c :: t) || subList w t

/-- Python `w in s` (substring containment) on strings. -/
def strContains (s w : String) : Bool := subList w.data s.data

/-! ## Building model (`building_model.py`)

The `Material`, `Construction`, `Surface` and `Zone` dataclasses.  The copy
under `material_comparison_tool/src/core/building_model.py` is the one present
in the source tree; `core/heat_balance.py` imports an identically-shaped
`building_model` module and reads exactly these fields. -/

/-- The `Material` dataclass: a layer property bag. -/
structure Material where
  name : String
  thickness : ℝ
  conductivity : ℝ
  density : ℝ
  specific_heat : ℝ
  solar_absorptance : ℝ := 0.6
  emissivity : ℝ := 0.9

/-- The `Construction` dataclass: ordered layers, outermost first. -/
structure Construction where
  name : String
  layers : List Material := []

/-- `Construction.outer_material`: first layer if any. -/
def Construction.outer_material (c : Construction) : Option Material :=
  c.layers.head?

/-- `Construction.inner_material`: last layer if any. -/
def Construction.inner_material (c : Construction) : Option Material :=
  c.layers.getLast?

/-- The `Surface` dataclass.  `solar_absorptance`/`emissivity` are optional
overrides (Python `None` = `none`); `temperature` and
`internal_radiative_flux` are the mutable per-timestep state. -/
structure Surface where
  name : String
  zone : String
  area : ℝ
  orientation : String
  construction : Option Construction := none
  solar_absorptance : Option ℝ := none
  emissivity : Option ℝ := none
  temperature : ℝ := 293.15
  internal_radiative_flux : ℝ := 0.0

/-- The `Zone` dataclass with its mutable load/energy/temperature state.
`surface_temperatures` models the Python snapshot dict in insertion order. -/
structure Zone where
  name : String
  volume : ℝ
  area : ℝ := 100
  occupancy_density : ℝ := 0.05
  equipment_load : ℝ := 10
  lighting_load : ℝ := 5
  surfaces : List Surface := []
  temperature : ℝ := 293.15
  cooling_load : ℝ := 0
  heating_load : ℝ := 0
  latent_load : ℝ := 0
  cooling_energy : ℝ := 0
  heating_energy : ℝ := 0
  surface_temperatures : List (String × ℝ) := []

/-! ## Weather record

The flat per-hour record dict produced by `WeatherData.get_hourly_data` and
consumed by `heat_balance.py` / `simulation_engine.py`.  `temperature` (°C) is
a required key; every other key is read through `dict.get` with a default, so
it is modelled as an `Option`. -/

/-- The pieces of a Python `datetime` read by the solar-position code
(`timetuple().tm_yday`, `.hour`, `.minute`, `.second`). -/
structure PyDateTime where
  yday : ℕ
  hour : ℕ
  minute : ℕ
  second : ℕ

/-- One weather record (dict) as consumed by the heat-balance and engine
code. -/
structure Weather where
  temperature : ℝ
  humidity : Option ℝ := none
  solar_radiation : Option ℝ := none
  direct_normal_radiation : Option ℝ := none
  diffuse_horizontal_radiation : Option ℝ := none
  wind_speed : Option ℝ := none
  atmospheric_pressure : Option ℝ := none
  infrared_sky_radiation : Option ℝ := none
  dew_point : Option ℝ := none
  total_sky_cover : Option ℝ := none
  month : Option ℤ := none
  date_time : Option PyDateTime := none
  latitude : Option ℝ := none
  longitude : Option ℝ := none
  timezone : Option ℝ := none
  albedo : Option ℝ := none
  annual_mean_temperature : Option ℝ := none

/-! ## HVAC system (`core/hvac_system.py`) -/

/-- Physical constant `self.air_cp` (J/kg·K). -/
def air_cp : ℝ := 1005

/-- Physical constant `self.latent_heat` (J/kg). -/
def latent_heat : ℝ := 2500000

/-- The `HVACSystem` attribute state after `__init__` has run: setpoints are
already converted to kelvin, every field carries the `config.get` default. -/
structure HVACSystem where
  cooling_setpoint : ℝ := 26 + 273.15
  heating_setpoint : ℝ := 20 + 273.15
  humidity_setpoint : ℝ := 0.5
  cop_cooling_ref : ℝ := 3.5
  cop_heating_ref : ℝ := 3.0
  cop_ref_temp : ℝ := 35 + 273.15
  cop_temp_coeff_a : ℝ := -0.01
  cop_temp_coeff_b : ℝ := 0.0001
  plr_coeff_a : ℝ := 0.125
  plr_coeff_b : ℝ := 0.875
  max_cooling_capacity : ℝ := 50000
  max_heating_capacity : ℝ := 40000
  air_mass_flow : ℝ := 2.0

/-- `HVACSystem.get_cop_cooling` (lines 148-178): quadratic correction in
`T_outdoor − cop_ref_temp` after clipping the input to [250, 330] K, result
clipped to [1, 6].  Passing `none` models the Python default
`T_outdoor=None`. -/
noncomputable def HVACSystem.get_cop_cooling (sys : HVACSystem)
    (T_outdoor? : Option ℝ) : ℝ :=
  let T0 := T_outdoor?.getD sys.cop_ref_temp
  let T_outdoor := npClip T0 250.0 330.0
  let dT := T_outdoor - sys.cop_ref_temp
  let cop := sys.cop_cooling_ref * (1.0 - 0.02 * dT - 0.0005 * dT ^ 2)
  npClip cop 1.0 6.0

/-- `HVACSystem.get_cop_heating` (lines 180-217): input clipped to [250, 330] K,
piecewise quadratic in `dT = T_outdoor − (273.15 + 7)` with three regimes,
result clipped to [1, 5]. -/
noncomputable def HVACSystem.get_cop_heating (sys : HVACSystem)
    (T_outdoor? : Option ℝ) : ℝ :=
  let T0 := T_outdoor?.getD sys.cop_ref_temp
  let T_outdoor := npClip T0 250.0 330.0
  let ref_heat := 273.15 + 7.0
  let dT := T_outdoor - ref_heat
  let cop :=
    if dT < -10.0 then
      sys.cop_heating_ref * (1.0 + 0.04 * dT - 0.0010 * dT ^ 2)
    else if dT < 0.0 then
      sys.cop_heating_ref * (1.0 + 0.03 * dT - 0.0006 * dT ^ 2)
    else
      sys.cop_heating_ref * (1.0 + 0.015 * dT - 0.0003 * dT ^ 2)
  npClip cop 1.0 5.0

/-- `HVACSystem._get_part_load_factor` (lines 219-239). -/
noncomputable def HVACSystem.get_part_load_factor (sys : HVACSystem)
    (plr : ℝ) : ℝ :=
  if plr ≤ 0 then 0
  else max 0.1 (min 1.0 (sys.plr_coeff_a + sys.plr_coeff_b * plr))

/-- `HVACSystem.calculate_latent_load` (lines 88-107). -/
noncomputable def HVACSystem.calculate_latent_load (sys : HVACSystem)
    (humidity humidity_setpoint : ℝ) : ℝ :=
  if humidity > humidity_setpoint then
    sys.air_mass_flow * latent_heat * (humidity - humidity_setpoint) * 0.01
  else 0

/-- `HVACSystem.calculate_energy` (lines 109-146): zero for non-positive load,
otherwise `(load / cop_part) * dt` with COP corrected for outdoor temperature
and part-load ratio (mode is the Python string argument). -/
noncomputable def HVACSystem.calculate_energy (sys : HVACSystem) (load : ℝ)
    (mode : String) (dt : ℝ) (T_outdoor? : Option ℝ) : ℝ :=
  if load ≤ 0 then 0.0
  else
    let cop := if mode == "cooling" then sys.get_cop_cooling T_outdoor?
               else sys.get_cop_heating T_outdoor?
    let capacity := if mode == "cooling" then sys.max_cooling_capacity
                    else sys.max_heating_capacity
    let plr := min (load / capacity) 1.0
    let cop_part := max (cop * sys.get_part_load_factor plr) 0.1
    (load / cop_part) * dt

/-- `HeatPumpSystem.get_cop_heating` (lines 321-335): the heat-pump override.
Unlike the base class it does not clip the input temperature and only floors
the result at 0.5 (no [1, 5] clamp). -/
noncomputable def HeatPumpSystem.get_cop_heating (sys : HVACSystem)
    (T_outdoor? : Option ℝ) : ℝ :=
  let T_outdoor := T_outdoor?.getD sys.cop_ref_temp
  let dT := T_outdoor - sys.cop_ref_temp
  let cop := sys.cop_heating_ref *
    (1 + sys.cop_temp_coeff_a * 1.5 * dT + sys.cop_temp_coeff_b * 1.5 * dT ^ 2)
  max 0.5 cop

/-- `HVACSystem` built from an empty config dict (all defaults). -/
noncomputable def defaultHVAC : HVACSystem := {}

/-- `HeatPumpSystem` built from an empty config dict: `__init__` resets
`cop_heating_ref` to `config.get('cop_heating', 4.0)`. -/
noncomputable def defaultHeatPump : HVACSystem := { cop_heating_ref := 4.0 }

/-! ## Heat balance engine (`core/heat_balance.py`) -/

/-- Physical constant `self.stefan_boltzmann` (W/m²·K⁴). -/
noncomputable def stefan_boltzmann : ℝ := 5.67e-8

/-- Physical constant `self.air_density` (kg/m³). -/
noncomputable def air_density : ℝ := 1.2

/-- The `HeatBalance` attribute state after `__init__`: ventilation air-change
rate and the four sky-temperature model weights (with their defaults), plus
the fixed solver constants set in the constructor. -/
structure HeatBalance where
  ventilation_ach : ℝ := 0.2
  sky_w_epw_ir : ℝ := 1.0
  sky_w_brunt : ℝ := 0.4
  sky_w_brutsaert : ℝ := 0.3
  sky_w_swinbank : ℝ := 0.5
  convergence_tolerance : ℝ := 0.005
  max_iterations : ℕ := 30

/-- `numpy.median` of a list (sort, middle element, average of the two middle
elements for even length).  Only reachable from dead code in
`_effective_sky_temperature` but embedded for completeness. -/
noncomputable def npMedian (l : List ℝ) : ℝ :=
  let s := l.mergeSort (fun a b => decide (a ≤ b))
  let n := l.length
  if n = 0 then 0
  else if n % 2 = 1 then s.getD (n / 2) 0
  else (s.getD (n / 2 - 1) 0 + s.getD (n / 2) 0) / 2

/-- The `(candidate, weight)` list assembled by `_effective_sky_temperature`
(lines 93-153): EPW infrared (if present and `> 1` W/m²), Brunt (if a dew
point is present; skipped on the `ZeroDivisionError` at dew point −237.7 °C,
matching the `except` clause), Brutsaert and Swinbank (always present).
Float overflow inside `10 ** x` is not modelled. -/
noncomputable def skyCandidates (hb : HeatBalance) (w : Weather) (TaK : ℝ) :
    List (ℝ × ℝ) :=
  let Nf : Option ℝ := w.total_sky_cover.map (fun N => N / 10.0)
  let epw : List (ℝ × ℝ) :=
    match w.infrared_sky_radiation with
    | some L =>
      if L > 1.0 then [(Real.rpow (L / stefan_boltzmann) 0.25, hb.sky_w_epw_ir)]
      else []
    | none => []
  let e_kPa : Option ℝ :=
    match w.dew_point with
    | some t =>
      if 237.7 + t = 0 then none
      else some (6.112 * Real.rpow 10 (7.5 * t / (237.7 + t)) / 10.0)
    | none => none
  let brunt : List (ℝ × ℝ) :=
    match w.dew_point with
    | some t =>
      if 237.7 + t = 0 then []
      else
        let e_hPa2 := 6.112 * Real.rpow 10 (7.5 * t / (237.7 + t))
        let eps_clear := npClip (0.51 + 0.066 * Real.sqrt (max e_hPa2 0.0)) 0.2 1.0
        let eps_sky := match Nf with
          | some nf => eps_clear * (1.0 + 0.22 * nf ^ 2)
          | none => eps_clear
        [(Real.rpow eps_sky 0.25 * TaK, hb.sky_w_brunt)]
    | none => []
  let bruts : List (ℝ × ℝ) :=
    let eps0 :=
      match e_kPa with
      | some e =>
        if e > 0.0 then 1.24 * Real.rpow (e / max TaK 1.0) (1.0 / 7.0) else 0.72
      | none => 0.72
    let eps_clear := npClip eps0 0.2 1.0
    let eps_sky := match Nf with
      | some nf => eps_clear * (1.0 + 0.22 * nf ^ 2)
      | none => eps_clear
    [(Real.rpow eps_sky 0.25 * TaK, hb.sky_w_brutsaert)]
  let swin : List (ℝ × ℝ) :=
    let L_clear := 5.31e-8 * TaK ^ 6
    let Tsky_swin :=
      match Nf with
      | some nf =>
        let eps_clear := L_clear / (stefan_boltzmann * TaK ^ 4)
        Real.rpow (eps_clear * (1.0 + 0.22 * nf ^ 2)) 0.25 * TaK
      | none => Real.rpow (L_clear / stefan_boltzmann) 0.25
    [(Tsky_swin, hb.sky_w_swinbank)]
  epw ++ brunt ++ bruts ++ swin

/-- `HeatBalance._effective_sky_temperature` (lines 78-170): weighted average
of the model candidates, finally clipped to `[TaK − 40, TaK − 2]`.
Normalising the weights by their total and then summing `c·w` equals summing
`c·w` and dividing by the total, which is how it is written here. -/
noncomputable def effective_sky_temperature (hb : HeatBalance) (w : Weather)
    (T_outK : ℝ) : ℝ :=
  let TaK := npClip T_outK 200.0 330.0
  let cands := skyCandidates hb w TaK
  if cands.isEmpty then TaK
  else
    let Tsky :=
      if cands.length = 1 then (cands.headD (0, 0)).1
      else
        let sumw := (cands.map Prod.snd).sum
        let total_w := if sumw > 0 then sumw else (cands.length : ℝ)
        if total_w = 0 then npMedian (cands.map Prod.fst)
        else (cands.map (fun cw => cw.1 * cw.2)).sum / total_w
    npClip Tsky (TaK - 40.0) (TaK - 2.0)

/-- `numpy.deg2rad`. -/
noncomputable def deg2rad (x : ℝ) : ℝ := x * Real.pi / 180.0

/-- `HeatBalance._surface_tilt_azimuth` (lines 551-569): orientation to
(tilt β, surface azimuth), both in radians. -/
noncomputable def surface_tilt_azimuth (orientation : String) : ℝ × ℝ :=
  let ori := pyLower orientation
  if ori == "roof" then (0.0, 0.0)
  else if ori == "floor" then (Real.pi, 0.0)
  else if ori == "north" then (Real.pi / 2, 0.0)
  else if ori == "east" then (Real.pi / 2, deg2rad 90.0)
  else if ori == "south" then (Real.pi / 2, deg2rad 180.0)
  else if ori == "west" then (Real.pi / 2, deg2rad 270.0)
  else (Real.pi / 2, deg2rad 180.0)

/-- `HeatBalance._radiative_environment_temperature` (lines 172-184): blend of
sky and ground seen through the sky view factor `(1 + cos β)/2`. -/
noncomputable def radiative_environment_temperature (orientation : String)
    (T_skyK T_outK : ℝ) : ℝ :=
  let beta := (surface_tilt_azimuth orientation).1
  let F_sky := npClip (0.5 * (1.0 + Real.cos beta)) 0.0 1.0
  let T_ground := npClip T_outK 200.0 330.0
  let T_env4 := F_sky * T_skyK ^ 4 + (1.0 - F_sky) * T_ground ^ 4
  npClip (Real.rpow T_env4 0.25) 150.0 340.0

/-- `HeatBalance._calculate_exterior_convection_coefficient` (lines 405-439):
Churchill–Chu natural convection (at the fixed representative `dT = 5` K)
combined with an orientation-dependent wind power law through a cube norm,
clipped to [2, 50]. -/
noncomputable def calculate_exterior_convection_coefficient (wind_speed : ℝ)
    (orientation : String) : ℝ :=
  let ws := max 0.0 wind_speed
  let L : ℝ := 1.0
  let dT : ℝ := 5.0
  let g : ℝ := 9.81
  let nu : ℝ := 1.5e-5
  let Pr : ℝ := 0.71
  let beta : ℝ := 1.0 / 300.0
  let Ra := g * beta * dT * L ^ 3 / (nu * (nu / Pr))
  let Nu_nat :=
    if Ra < 1e9 then
      0.68 + 0.67 * Real.rpow Ra 0.25 /
        Real.rpow (1.0 + Real.rpow (0.492 / Pr) (9.0 / 16.0)) (4.0 / 9.0)
    else
      0.825 + 0.387 * Real.rpow Ra (1.0 / 6.0) /
        Real.rpow (1.0 + Real.rpow (0.492 / Pr) (9.0 / 16.0)) (8.0 / 27.0)
  let k_air : ℝ := 0.026
  let h_nat := npClip (Nu_nat * k_air / L) 0.5 8.0
  let ori := pyLower orientation
  let c_wind := if ori == "roof" then 3.0 else if ori == "floor" then 2.0 else 3.94
  let n_wind : ℝ := 0.6
  let h_wind := npClip (c_wind * Real.rpow ws n_wind) 0.0 50.0
  let h_ext := Real.rpow (h_nat ^ 3 + h_wind ^ 3) (1.0 / 3.0)
  npClip h_ext 2.0 50.0

/-- `HeatBalance._calculate_interior_convection_coefficient` (lines 441-484):
orientation constants when no temperature difference is supplied, otherwise a
Rayleigh/Nusselt correlation clipped to [1, 10]. -/
noncomputable def calculate_interior_convection_coefficient
    (surface_orientation : String) (dT? : Option ℝ) : ℝ :=
  match dT? with
  | none =>
    if ["North", "South", "East", "West"].contains surface_orientation then 3.0
    else if surface_orientation == "Roof" then 4.0
    else if surface_orientation == "Floor" then 2.0
    else 3.0
  | some dT0 =>
    let dT := max 0.1 |dT0|
    let L : ℝ := 1.0
    let g : ℝ := 9.81
    let nu : ℝ := 1.5e-5
    let Pr : ℝ := 0.71
    let beta : ℝ := 1.0 / 300.0
    let Ra := g * beta * dT * L ^ 3 / (nu * (nu / Pr))
    let ori := pyLower surface_orientation
    let Nu :=
      if ori == "roof" then
        if Ra < 1e9 then 0.54 * Real.rpow Ra 0.25
        else 0.15 * Real.rpow Ra (1.0 / 3.0)
      else if ori == "floor" then
        if Ra < 1e9 then 0.27 * Real.rpow Ra 0.25
        else 0.075 * Real.rpow Ra (1.0 / 3.0)
      else
        if Ra < 1e9 then
          0.68 + 0.67 * Real.rpow Ra 0.25 /
            Real.rpow (1.0 + Real.rpow (0.492 / Pr) (9.0 / 16.0)) (4.0 / 9.0)
        else
          0.825 + 0.387 * Real.rpow Ra (1.0 / 6.0) /
            Real.rpow (1.0 + Real.rpow (0.492 / Pr) (9.0 / 16.0)) (8.0 / 27.0)
    npClip (Nu * 0.026 / L) 1.0 10.0

/-- `HeatBalance._calculate_u_cond` (lines 758-771): pure-conduction U-value
from the layer list, clipped to [0.05, 10]. -/
noncomputable def calculate_u_cond (construction : Option Construction) : ℝ :=
  match construction with
  | none => 1.0
  | some c =>
    if c.layers.isEmpty then 1.0
    else
      let Rm := (c.layers.map
        (fun m => max 1e-4 m.thickness / max 0.01 m.conductivity)).sum
      npClip (1.0 / max Rm 1e-6) 0.05 10.0

/-- `HeatBalance._solar_alt_az` (lines 571-616): simplified solar position
(altitude, azimuth from north, radians). -/
noncomputable def solar_alt_az (dt : PyDateTime) (lat_deg lon_deg tz_hours : ℝ) :
    ℝ × ℝ :=
  let lat := deg2rad lat_deg
  let n : ℝ := (dt.yday : ℝ)
  let gamma := 2.0 * Real.pi * (n - 1) / 365.0
  let delta := 0.006918
    - 0.399912 * Real.cos gamma
    + 0.070257 * Real.sin gamma
    - 0.006758 * Real.cos (2 * gamma)
    + 0.000907 * Real.sin (2 * gamma)
    - 0.002697 * Real.cos (3 * gamma)
    + 0.00148 * Real.sin (3 * gamma)
  let EoT := 229.18 * (0.000075
    + 0.001868 * Real.cos gamma
    - 0.032077 * Real.sin gamma
    - 0.014615 * Real.cos (2 * gamma)
    - 0.040849 * Real.sin (2 * gamma))
  let Lst := 15.0 * tz_hours
  let time_offset := EoT + 4.0 * (lon_deg - Lst)
  let true_solar_time := (dt.hour : ℝ) + (dt.minute : ℝ) / 60.0
    + (dt.second : ℝ) / 3600.0 + time_offset / 60.0
  let H := deg2rad (15.0 * (true_solar_time - 12.0))
  let sin_alpha := Real.sin lat * Real.sin delta
    + Real.cos lat * Real.cos delta * Real.cos H
  let alpha := Real.arcsin (npClip sin_alpha (-1.0) 1.0)
  if alpha ≤ 0 then (0.0, 0.0)
  else
    let cos_az := npClip ((Real.sin delta - Real.sin alpha * Real.sin lat) /
       (Real.cos alpha * Real.cos lat + 1e-9)) (-1.0) 1.0
    let az0 := Real.arccos cos_az
    let az := if Real.sin H ≥ 0 then az0 else 2.0 * Real.pi - az0
    (alpha, az)

/-- The seasonal direction-factor dict selected by month in the no-geodata
fallback of `_calculate_surface_solar_radiation` (lines 508-515). -/
def seasonalFactorTable (month : ℤ) : List (String × ℝ) :=
  if month = 12 ∨ month = 1 ∨ month = 2 then
    [("South", 1.5), ("North", 0.1), ("East", 0.7), ("West", 0.7),
     ("Roof", 0.6), ("Floor", 0.0)]
  else if month = 3 ∨ month = 4 ∨ month = 5 then
    [("South", 1.2), ("North", 0.3), ("East", 0.9), ("West", 0.9),
     ("Roof", 0.9), ("Floor", 0.0)]
  else if month = 6 ∨ month = 7 ∨ month = 8 then
    [("South", 0.7), ("North", 0.5), ("East", 0.6), ("West", 0.6),
     ("Roof", 1.3), ("Floor", 0.0)]
  else
    [("South", 1.2), ("North", 0.2), ("East", 0.8), ("West", 0.8),
     ("Roof", 1.0), ("Floor", 0.0)]

/-- Python `d.get(key, default)` on an association list. -/
def lookupD (l : List (String × ℝ)) (key : String) (default : ℝ) : ℝ :=
  ((l.find? (fun p => p.1 == key)).map Prod.snd).getD default

/-- `HeatBalance._calculate_surface_solar_radiation` (lines 486-549): floors
always get 0; with full geodata the isotropic-sky tilted-surface model from
the computed solar position; otherwise the seasonal factor times GHI. -/
noncomputable def calculate_surface_solar_radiation (s : Surface)
    (w : Weather) : ℝ :=
  if pyLower s.orientation == "floor" then 0.0
  else
    let GHI := max 0.0 (w.solar_radiation.getD 0.0)
    let DNI := max 0.0 (w.direct_normal_radiation.getD 0.0)
    let DHI := max 0.0 (w.diffuse_horizontal_radiation.getD 0.0)
    let albedo := max 0.0 (min (w.albedo.getD 0.2) 0.9)
    match w.date_time, w.latitude, w.longitude, w.timezone with
    | some dt, some lat0, some lon0, some tz0 =>
      let aa := solar_alt_az dt lat0 lon0 tz0
      let alpha := aa.1
      let az := aa.2
      if alpha ≤ 0 then 0.0
      else
        let ba := surface_tilt_azimuth s.orientation
        let beta := npClip ba.1 0.0 Real.pi
        let az_surf := ba.2
        let theta_z := Real.pi / 2.0 - alpha
        let cos_theta_i := max 0.0 (Real.cos theta_z * Real.cos beta +
          Real.sin theta_z * Real.sin beta * Real.cos (az - az_surf))
        let csz := max 1e-3 (Real.cos theta_z)
        let DNI2 := if DNI ≤ 0.0 then max 0.0 ((GHI - DHI) / csz) else DNI
        let I_beam := DNI2 * cos_theta_i
        let I_diff := DHI * (1.0 + Real.cos beta) * 0.5
        let I_refl := GHI * albedo * (1.0 - Real.cos beta) * 0.5
        max 0.0 I_beam + max 0.0 I_diff + max 0.0 I_refl
    | _, _, _, _ =>
      let month := w.month.getD 6
      GHI * lookupD (seasonalFactorTable month) s.orientation 0.5

/-- Optical emissivity used for the exterior long-wave term (line 251): the
surface override when not `None`, else the construction outer material, else
0.9. -/
noncomputable def surfEmissivity (s : Surface) : ℝ :=
  match s.emissivity with
  | some e => e
  | none =>
    match s.construction.bind Construction.outer_material with
    | some m => m.emissivity
    | none => 0.9

/-- Solar absorptance used for the absorbed-solar term (line 252): the surface
override when not `None`, else the construction outer material, else 0.6. -/
noncomputable def surfSolarAbsorptance (s : Surface) : ℝ :=
  match s.solar_absorptance with
  | some a => a
  | none =>
    match s.construction.bind Construction.outer_material with
    | some m => m.solar_absorptance
    | none => 0.6

/-- Interior-side emissivity (construction inner material, default 0.9), as
read at lines 268-269. -/
noncomputable def innerEmissivity (s : Surface) : ℝ :=
  match s.construction.bind Construction.inner_material with
  | some m => m.emissivity
  | none => 0.9

/-- One iteration of the exterior-temperature fixed point in
`calculate_surface_temperature` (lines 248-290): linearised long-wave
radiation about `Tm`, interior film recomputed from the current temperature
difference, under-relaxation 0.3 and the [230, 340] K iterate clamp. -/
noncomputable def surfaceTempStep (s : Surface)
    (T_zone T_out h_ext I_solar T_env_rad U_cond T_ext : ℝ) : ℝ :=
  let emiss := surfEmissivity s
  let alpha := surfSolarAbsorptance s
  let Tm := npClip T_ext 200.0 330.0
  let h_rad_ext := npClip (4.0 * emiss * stefan_boltzmann * Tm ^ 3) 0.1 20.0
  let T_env_lin :=
    npClip ((T_env_rad ^ 4 - Tm ^ 4) / (4.0 * Tm ^ 3) + Tm) 150.0 330.0
  let dT_int_iter := |T_zone - T_ext|
  let h_int := calculate_interior_convection_coefficient s.orientation
    (some dT_int_iter)
  let eps_in := innerEmissivity s
  let h_rad_in :=
    npClip (4.0 * eps_in * stefan_boltzmann * (npClip T_zone 250.0 330.0) ^ 3)
      0.1 10.0
  let h_in_tot := max 0.1 (h_int + h_rad_in)
  let U_eq := U_cond * h_in_tot / (h_in_tot + U_cond)
  let q_int := s.internal_radiative_flux
  let q_eq := U_cond / max (h_in_tot + U_cond) 1e-6 * q_int
  let denom := h_ext + h_rad_ext + U_eq
  let rhs := h_ext * T_out + h_rad_ext * T_env_lin + alpha * I_solar
    + U_eq * T_zone - q_eq
  let T_new := rhs / max denom 1e-6
  npClip ((1.0 - 0.3) * T_ext + 0.3 * T_new) 230.0 340.0

/-- The `for _ in range(30)` loop with its `break` on
`|T_new − T_ext| < convergence_tolerance`: recursion on the remaining
iteration count. -/
noncomputable def surfaceTempIterate (s : Surface)
    (T_zone T_out h_ext I_solar T_env_rad U_cond tol : ℝ) :
    ℕ → ℝ → ℝ
  | 0, T_ext => T_ext
  | n + 1, T_ext =>
    let T_new := surfaceTempStep s T_zone T_out h_ext I_solar T_env_rad U_cond T_ext
    if |T_new - T_ext| < tol then T_new
    else surfaceTempIterate s T_zone T_out h_ext I_solar T_env_rad U_cond tol n T_new

/-- `HeatBalance.calculate_surface_temperature` (lines 186-310), returning the
pair (converged exterior temperature, interior surface temperature).  The
source writes the second component to `surface.temperature` and returns it;
the first component is the loop variable `T_ext` after the iteration. -/
noncomputable def surfaceSolve (hb : HeatBalance) (s : Surface) (w : Weather)
    (T_zone0 : ℝ) : ℝ × ℝ :=
  let T_out0 := w.temperature + 273.15
  let T_zone := npClip T_zone0 250.0 330.0
  let T_out := npClip T_out0 200.0 330.0
  let T_sky := npClip (effective_sky_temperature hb w T_out) 150.0 330.0
  let U_cond := max 0.05 (min (calculate_u_cond s.construction) 10.0)
  let het :=
    if pyLower s.orientation == "floor" then
      let T_groundK :=
        match w.annual_mean_temperature with
        | some am => am + 273.15
        | none => T_out
      ((0.5 : ℝ), (0.0 : ℝ), T_groundK)
    else
      let h_ext := max 2.0 (min
        (calculate_exterior_convection_coefficient (w.wind_speed.getD 2.0)
          s.orientation) 50.0)
      let I_solar := max 0.0 (calculate_surface_solar_radiation s w)
      (h_ext, I_solar, radiative_environment_temperature s.orientation T_sky T_out)
  let h_ext := het.1
  let I_solar := het.2.1
  let T_env_rad := het.2.2
  let T_ext := surfaceTempIterate s T_zone T_out h_ext I_solar T_env_rad U_cond
    hb.convergence_tolerance 30 T_out
  let dT_int_final := |T_zone - T_ext|
  let h_int := calculate_interior_convection_coefficient s.orientation
    (some dT_int_final)
  let eps_in := innerEmissivity s
  let h_rad_in :=
    npClip (4.0 * eps_in * stefan_boltzmann * (npClip T_zone 250.0 330.0) ^ 3)
      0.1 10.0
  let h_in_tot := max 0.1 (h_int + h_rad_in)
  let q_int := s.internal_radiative_flux
  let T_int := npClip ((h_in_tot * T_zone + U_cond * T_ext - q_int) /
    max (h_in_tot + U_cond) 1e-6) 230.0 340.0
  (T_ext, T_int)

/-- The return value of `calculate_surface_temperature` (the interior surface
temperature, also written to `surface.temperature`). -/
noncomputable def calculate_surface_temperature (hb : HeatBalance)
    (s : Surface) (w : Weather) (T_zone : ℝ) : ℝ :=
  (surfaceSolve hb s w T_zone).2

/-- `HeatBalance._calculate_solar_gain` (lines 618-633): transmitted solar
through constructions whose name contains "window", transmittance 0.6. -/
noncomputable def calculate_solar_gain (z : Zone) (w : Weather) : ℝ :=
  (z.surfaces.map (fun s =>
    let cons_name := match s.construction with | some c => c.name | none => ""
    if strContains (pyLower cons_name) "window" then
      s.area * 0.6 * max 0.0 (calculate_surface_solar_radiation s w)
    else 0.0)).sum

/-- `HeatBalance._calculate_convection_heat` (lines 635-654). -/
noncomputable def calculate_convection_heat (z : Zone) : ℝ :=
  (z.surfaces.map (fun s =>
    let dT_local := |s.temperature - z.temperature|
    let h_int := calculate_interior_convection_coefficient s.orientation
      (some dT_local)
    h_int * s.area * (s.temperature - z.temperature))).sum

/-- `HeatBalance._calculate_internal_heat` (lines 685-709): sensible internal
gains (occupants 75 W/person, equipment at 90 %, lighting fully). -/
noncomputable def calculate_internal_heat (z : Zone) : ℝ :=
  z.occupancy_density * z.area * 75.0 + z.area * z.equipment_load * 0.9
    + z.area * z.lighting_load

/-- `HeatBalance._calculate_ventilation_heat` (lines 711-738). -/
noncomputable def calculate_ventilation_heat (hb : HeatBalance) (z : Zone)
    (w : Weather) : ℝ :=
  let T_out := w.temperature + 273.15
  let p_out := w.atmospheric_pressure.getD 101325.0
  let R_air : ℝ := 287.058
  let rho_out := npClip (p_out / max (R_air * T_out) 1e-3) 0.6 1.6
  let air_change_rate := hb.ventilation_ach
  let volume_flow := z.volume * air_change_rate / 3600.0
  let mass_flow := rho_out * volume_flow
  mass_flow * air_cp * (T_out - z.temperature)

/-- `HeatBalance._split_internal_loads` (lines 345-363): (convective,
radiative, latent) split of the internal gains. -/
noncomputable def split_internal_loads (z : Zone) : ℝ × ℝ × ℝ :=
  let Q_occ_sens := z.occupancy_density * z.area * 75.0
  let Q_equip := z.area * z.equipment_load
  let Q_light := z.area * z.lighting_load
  (0.5 * Q_occ_sens + 0.5 * Q_equip + 0.38 * Q_light,
   0.5 * Q_occ_sens + 0.5 * Q_equip + 0.62 * Q_light,
   0.0)

/-- The uniform flux assigned by `_distribute_internal_radiation`
(lines 365-372). -/
noncomputable def distributeFlux (z : Zone) (Q_internal_rad Q_solar_rad : ℝ) : ℝ :=
  let total_rad := max 0.0 (Q_internal_rad + Q_solar_rad)
  let A := (z.surfaces.map (fun s => max 0.0 s.area)).sum
  if total_rad > 0 then total_rad / max A 1e-6 else 0.0

/-- `HeatBalance.compute_sensible_balance` (lines 374-403): probe the zone at
the target temperature `T_zoneK`.  Returns `(Q_total, updated zone)`; the
updated zone carries the recomputed surface fluxes/temperatures while its air
temperature is restored to the value it had before the call. -/
noncomputable def compute_sensible_balance (hb : HeatBalance) (z : Zone)
    (w : Weather) (T_zoneK : ℝ) : ℝ × Zone :=
  let Q_solar_total := calculate_solar_gain z w
  let Q_solar_conv := 0.2 * Q_solar_total
  let Q_solar_rad := 0.8 * Q_solar_total
  let sil := split_internal_loads z
  let Q_int_conv := sil.1
  let Q_int_rad := sil.2.1
  let sA := z.surfaces.map (fun s => { s with internal_radiative_flux := 0.0 })
  let zA := { z with surfaces := sA }
  let flux := distributeFlux zA Q_int_rad Q_solar_rad
  let sB := zA.surfaces.map (fun s => { s with internal_radiative_flux := flux })
  let zB := { zA with surfaces := sB }
  let sC := zB.surfaces.map (fun s =>
    { s with temperature := calculate_surface_temperature hb s w T_zoneK })
  let zC := { zB with surfaces := sC }
  let T_prev := zC.temperature
  let zD := { zC with temperature := T_zoneK }
  let Q_conv := calculate_convection_heat zD
  let Q_ventilation := calculate_ventilation_heat hb zD w
  let zE := { zD with temperature := T_prev }
  (Q_conv + Q_ventilation + Q_int_conv + Q_solar_conv, zE)

/-- The flux value `compute_sensible_balance` installs on every surface of
the zone (the `distributeFlux` call after the reset pass), as a standalone
function of the zone and weather. -/
noncomputable def csbFlux (z : Zone) (w : Weather) : ℝ :=
  distributeFlux
    { z with surfaces :=
        z.surfaces.map (fun s => { s with internal_radiative_flux := 0.0 }) }
    (split_internal_loads z).2.1 (0.8 * calculate_solar_gain z w)

/-- A surface with its two mutable fields overwritten (used to state that
`compute_sensible_balance` ignores incoming mutable surface state). -/
noncomputable def mutSurf (f g : Surface → ℝ) (s : Surface) : Surface :=
  { s with temperature := f s, internal_radiative_flux := g s }

/-- The surface list produced by `compute_sensible_balance`: every surface
carries the distributed flux and the temperature solved at the probe
temperature. -/
noncomputable def csbSurfaces (hb : HeatBalance) (z : Zone) (w : Weather)
    (T : ℝ) : List Surface :=
  z.surfaces.map (fun s =>
    { s with
      temperature := calculate_surface_temperature hb
        { s with internal_radiative_flux := csbFlux z w } w T,
      internal_radiative_flux := csbFlux z w })

/-- `HeatBalance.calculate_zone_temperature` (lines 312-343): free-float zone
air temperature update using the actual thermal capacitance, with the ±5 K
per-step safety clamp and the [250, 330] K state clamp. -/
noncomputable def calculate_zone_temperature (hb : HeatBalance) (z : Zone)
    (w : Weather) : Zone :=
  let Q_solar := calculate_solar_gain z w
  let Q_solar_conv := 0.2 * Q_solar
  let Q_conv := calculate_convection_heat z
  let Q_internal := calculate_internal_heat z
  let Q_ventilation := calculate_ventilation_heat hb z w
  let Q_total := Q_solar_conv + Q_conv + Q_internal + Q_ventilation
  let dt : ℝ := 3600.0
  let C_air := air_density * z.volume * air_cp
  let effective_mass := z.volume * 50.0
  let C_building := effective_mass * 880.0
  let C_total := max 1.0 (C_air + C_building)
  let dT := npClip (Q_total * dt / C_total) (-5.0) 5.0
  { z with temperature := npClip (z.temperature + dT) 250.0 330.0 }

/-! ## Simulation engine (`core/simulation_engine.py`) -/

/-- The surface-temperature pass of one round of
`SimulationEngine._calculate_zone_heat_balance` (lines 163-166): every surface
temperature is recomputed at the zone's current air temperature. -/
noncomputable def surfacePass (hb : HeatBalance) (w : Weather) (z : Zone) : Zone :=
  let ss := z.surfaces.map (fun s =>
    { s with temperature := calculate_surface_temperature hb s w z.temperature })
  { z with surfaces := ss }

/-- The `for iteration in range(max_iterations)` loop of
`_calculate_zone_heat_balance` (lines 161-175) with its break once the zone
temperature change drops below the engine tolerance 0.01 K. -/
noncomputable def zoneHeatBalanceIterate (hb : HeatBalance) (w : Weather) :
    ℕ → Zone → Zone
  | 0, z => z
  | n + 1, z =>
    let z1 := surfacePass hb w z
    let old_temperature := z1.temperature
    let z2 := calculate_zone_temperature hb z1 w
    if |z2.temperature - old_temperature| < 0.01 then z2
    else zoneHeatBalanceIterate hb w n z2

/-- `SimulationEngine._calculate_zone_heat_balance` (lines 151-180): up to 10
convergence rounds, then the surface-temperature snapshot. -/
noncomputable def calculate_zone_heat_balance (hb : HeatBalance) (z : Zone)
    (w : Weather) : Zone :=
  let z2 := zoneHeatBalanceIterate hb w 10 z
  { z2 with surface_temperatures := z2.surfaces.map (fun s => (s.name, s.temperature)) }

/-- `SimulationEngine._calculate_hvac_load` (lines 182-217): two sensible
balance probes at the cooling and heating setpoints, rectified loads, latent
load, and the hourly HVAC energies. -/
noncomputable def calculate_hvac_load (hb : HeatBalance) (hvac : HVACSystem)
    (z : Zone) (w : Weather) : Zone :=
  let T_cool := hvac.cooling_setpoint
  let T_heat := hvac.heating_setpoint
  let qc := compute_sensible_balance hb z w T_cool
  let Q_cool := qc.1
  let qh := compute_sensible_balance hb qc.2 w T_heat
  let Q_heat := qh.1
  let cooling_load := if Q_cool > 0 then Q_cool else 0.0
  let heating_load := max 0.0 (-Q_heat)
  let latent_load := hvac.calculate_latent_load (w.humidity.getD 0.5)
    hvac.humidity_setpoint
  let zql := qh.2
  let z3 := { zql with cooling_load := cooling_load,
                       heating_load := heating_load,
                       latent_load := max 0.0 latent_load }
  let dt : ℝ := 3600.0
  let T_outdoor_K := w.temperature + 273.15
  let ce := hvac.calculate_energy z3.cooling_load "cooling" dt (some T_outdoor_K)
  let he := hvac.calculate_energy z3.heating_load "heating" dt (some T_outdoor_K)
  { z3 with cooling_energy := ce, heating_energy := he }

/-- One row of the `hourly_loads` result table (`_store_results`,
lines 222-238). -/
structure LoadRow where
  hour : ℕ
  day : ℤ
  hourOfDay : ℕ
  zone : String
  cooling_load_kW : ℝ
  heating_load_kW : ℝ
  latent_load_kW : ℝ
  cooling_energy_kWh : ℝ
  heating_energy_kWh : ℝ
  cooling_energy_kWh_per_m2 : ℝ
  heating_energy_kWh_per_m2 : ℝ
  cooling_energy_MJ_per_m2 : ℝ
  heating_energy_MJ_per_m2 : ℝ
  hvac_energy_MJ_per_m2 : ℝ

/-- One row of the `zone_temperatures` result table (lines 241-246). -/
structure TempRow where
  hour : ℕ
  day : ℤ
  hourOfDay : ℕ
  zone : String
  indoor_temp_C : ℝ

/-- One row of the `surface_temperatures` result table (lines 249-256). -/
structure SurfRow where
  hour : ℕ
  day : ℤ
  hourOfDay : ℕ
  zone : String
  surf : String
  temperature_C : ℝ

/-- The three append-only result tables of `self.results`. -/
structure SimResults where
  hourly_loads : List LoadRow := []
  zone_temperatures : List TempRow := []
  surface_temperatures : List SurfRow := []

/-- The mutable loop state of `run_simulation`: zone states, accumulated
results and the effective-hour counter. -/
structure EngineState where
  zones : List Zone
  results : SimResults := {}
  hour_counter : ℕ := 0

/-- `SimulationEngine._store_results` (lines 219-256): one row per zone is
appended to each table (and one per surface snapshot entry for the third).
Timestamps are modelled as a (day, hour-of-day) pair. -/
noncomputable def storeResults (day : ℤ) (hourOfDay : ℕ) (hc : ℕ)
    (zs : List Zone) (r : SimResults) : SimResults :=
  let lr := zs.map (fun z =>
    ({ hour := hc, day := day, hourOfDay := hourOfDay, zone := z.name,
       cooling_load_kW := z.cooling_load / 1000,
       heating_load_kW := z.heating_load / 1000,
       latent_load_kW := z.latent_load / 1000,
       cooling_energy_kWh := z.cooling_energy / 3.6e6,
       heating_energy_kWh := z.heating_energy / 3.6e6,
       cooling_energy_kWh_per_m2 := z.cooling_energy / 3.6e6 / max z.area 1e-6,
       heating_energy_kWh_per_m2 := z.heating_energy / 3.6e6 / max z.area 1e-6,
       cooling_energy_MJ_per_m2 := z.cooling_energy / 3.6e6 * 3.6 / max z.area 1e-6,
       heating_energy_MJ_per_m2 := z.heating_energy / 3.6e6 * 3.6 / max z.area 1e-6,
       hvac_energy_MJ_per_m2 :=
         (z.cooling_energy + z.heating_energy) / 3.6e6 * 3.6 / max z.area 1e-6 } : LoadRow))
  let tr := zs.map (fun z =>
    ({ hour := hc, day := day, hourOfDay := hourOfDay, zone := z.name,
       indoor_temp_C := z.temperature - 273.15 } : TempRow))
  let sr := zs.flatMap (fun z => z.surface_temperatures.map (fun st =>
    ({ hour := hc, day := day, hourOfDay := hourOfDay, zone := z.name,
       surf := st.1, temperature_C := st.2 - 273.15 } : SurfRow)))
  { hourly_loads := r.hourly_loads ++ lr,
    zone_temperatures := r.zone_temperatures ++ tr,
    surface_temperatures := r.surface_temperatures ++ sr }

/-- The `SimulationEngine` attribute state relevant to the hourly loop.
Dates are modelled as integer day numbers; `weatherAt` is the hourly weather
lookup.  Modelled from the spec: the engine's weather provider
(`core/weather_data.py`, absent from the source tree) exposes
`get_hourly_data(timestamp) → WeatherRecord`, a pure per-timestamp record
lookup, which is what this function field captures. -/
structure SimEngine where
  heat_balance : HeatBalance
  hvac_system : HVACSystem
  weatherAt : ℤ → ℕ → Weather
  start_date : ℤ
  end_date : ℤ
  timestep : ℕ := 1
  warmup_days : ℤ := 7

/-- `range(0, 24, timestep)`.  Python raises on a zero step; the engine only
uses positive steps, and a zero step is mapped to the empty hour list. -/
def hoursOfDay (timestep : ℕ) : List ℕ :=
  if timestep = 0 then [] else (List.range 24).filter (fun h => h % timestep = 0)

/-- The day sequence visited by the `while current_date <= end_date` loop. -/
def dayRange (start_date end_date : ℤ) : List ℤ :=
  (List.range (end_date + 1 - start_date).toNat).map (fun i => start_date + i)

/-- One inner-loop body of `run_simulation` (lines 121-141): fetch weather,
heat balance for every zone, HVAC load for every zone, then store results and
advance the effective-hour counter only once the warm-up period has elapsed
(`current_date >= warmup_end`). -/
noncomputable def hourAdvance (e : SimEngine) (warmup_end : ℤ)
    (current_day : ℤ) (st : EngineState) (hour : ℕ) : EngineState :=
  let w := e.weatherAt current_day hour
  let zs1 := st.zones.map (fun z => calculate_zone_heat_balance e.heat_balance z w)
  let zs2 := zs1.map (fun z => calculate_hvac_load e.heat_balance e.hvac_system z w)
  if warmup_end ≤ current_day then
    { zones := zs2,
      results := storeResults current_day hour st.hour_counter zs2 st.results,
      hour_counter := st.hour_counter + 1 }
  else { st with zones := zs2 }

/-- `SimulationEngine.run_simulation` (lines 100-149): the day loop around the
hour loop, starting from the configured zone states with empty result
tables. -/
noncomputable def run_simulation (e : SimEngine) (init_zones : List Zone) :
    EngineState :=
  let warmup_end := e.start_date + e.warmup_days
  (dayRange e.start_date e.end_date).foldl
    (fun st current_day =>
      (hoursOfDay e.timestep).foldl (hourAdvance e warmup_end current_day) st)
    { zones := init_zones }

/-- The pure zone-state update performed by one simulated hour, ignoring
result recording: the composition of the heat-balance pass and the HVAC-load
pass over all zones. -/
noncomputable def hourZoneUpdate (e : SimEngine) (zs : List Zone)
    (t : ℤ × ℕ) : List Zone :=
  let w := e.weatherAt t.1 t.2
  (zs.map (fun z => calculate_zone_heat_balance e.heat_balance z w)).map
    (fun z => calculate_hvac_load e.heat_balance e.hvac_system z w)

/-- Every (day, hour) the simulation loop visits, in order. -/
def allHours (e : SimEngine) : List (ℤ × ℕ) :=
  (dayRange e.start_date e.end_date).flatMap
    (fun d => (hoursOfDay e.timestep).map (fun h => (d, h)))

/-! ## Weather table of the material comparison tool
(`material_comparison_tool/src/core/weather_data.py`)

The parsed EPW table is modelled as a list of rows over `ℚ` with an integer
hour axis for `DateTime`; only the columns that `get_hourly_data` reads are
carried.  Location metadata is modelled alongside. -/

/-- One parsed EPW data row (the columns read by `get_hourly_data`). -/
structure EpwRow where
  dateTime : ℤ
  dbt : ℚ
  rh : ℚ
  gloHorzRad : ℚ
  dirNormRad : ℚ
  difHorzRad : ℚ
  windSpeed : ℚ
  atmPres : ℚ
  month : ℤ
  horzIR : Option ℚ := none
  dpt : Option ℚ := none
  totalSkyCover : Option ℚ := none
  albedo : Option ℚ := none
deriving DecidableEq

/-- The relative-humidity cleaning step of `_read_epw` (lines 186-193): the
whole column is clipped to [0, 100] only when at least one value exceeds
100. -/
def clampRH (rows : List EpwRow) : List EpwRow :=
  if rows.any (fun r => r.rh > 100) then
    rows.map (fun r => { r with rh := min (max r.rh 0) 100 })
  else rows

/-- The weather record dict built by `get_hourly_data` (lines 290-308),
restricted to its per-row numeric fields (`ℚ`-valued). -/
structure WeatherRecordQ where
  temperature : ℚ
  humidity : ℚ
  solar_radiation : ℚ
  direct_normal_radiation : ℚ
  diffuse_horizontal_radiation : ℚ
  wind_speed : ℚ
  atmospheric_pressure : ℚ
  infrared_sky_radiation : Option ℚ
  dew_point : Option ℚ
  total_sky_cover : Option ℚ
  month : ℤ
  albedo : ℚ
deriving DecidableEq

/-- The record built from one row: humidity is the RH percentage divided by
100, albedo defaults to 0.2. -/
def rowToRecord (r : EpwRow) : WeatherRecordQ :=
  { temperature := r.dbt,
    humidity := r.rh / 100,
    solar_radiation := r.gloHorzRad,
    direct_normal_radiation := r.dirNormRad,
    diffuse_horizontal_radiation := r.difHorzRad,
    wind_speed := r.windSpeed,
    atmospheric_pressure := r.atmPres,
    infrared_sky_radiation := r.horzIR,
    dew_point := r.dpt,
    total_sky_cover := r.totalSkyCover,
    month := r.month,
    albedo := r.albedo.getD (2/10) }

/-- One comparison step of the argmin scan: keep the incumbent unless the new
row is strictly closer (so the first minimiser wins, as pandas `argmin`
does). -/
def pickNearest (q : ℤ) (best r2 : EpwRow) : EpwRow :=
  if |r2.dateTime - q| < |best.dateTime - q| then r2 else best

/-- The nearest-row selection of `get_hourly_data` (line 286):
`(DateTime − t).abs().argmin()` keeps the first row attaining the minimal
absolute time distance; an empty table has no row (pandas raises there). -/
def nearestRow (q : ℤ) : List EpwRow → Option EpwRow
  | [] => none
  | r :: rs => some (rs.foldl (pickNearest q) r)

/-- `WeatherData.get_hourly_data` (lines 275-308) over the parsed table. -/
def get_hourly_data (rows : List EpwRow) (q : ℤ) : Option WeatherRecordQ :=
  (nearestRow q rows).map rowToRecord

/-! ## Building construction from config
(`material_comparison_tool/src/core/building_model.py`) -/

/-- One surface entry of the building config dict: a key maps to `none` when
the config omits it. -/
structure SurfaceConfig where
  name : Option String := none
  zone : Option String := none
  area : Option ℝ := none
  orientation : Option String := none
  construction : Option String := none
  solar_absorptance : Option ℝ := none
  emissivity : Option ℝ := none

/-- The predefined construction catalog built by
`BuildingModel._create_constructions` (lines 118-150). -/
noncomputable def create_constructions : List (String × Construction) :=
  [("Wall_Standard",
    { name := "Wall_Standard", layers :=
      [{ name := "Brick", thickness := 0.1, conductivity := 0.6, density := 1600,
         specific_heat := 840, solar_absorptance := 0.6, emissivity := 0.9 },
       { name := "Insulation", thickness := 0.05, conductivity := 0.04, density := 30,
         specific_heat := 840, solar_absorptance := 0.5, emissivity := 0.9 },
       { name := "Concrete", thickness := 0.2, conductivity := 1.4, density := 2300,
         specific_heat := 880, solar_absorptance := 0.6, emissivity := 0.9 }] }),
   ("Wall_HighPerformance",
    { name := "Wall_HighPerformance", layers :=
      [{ name := "Brick", thickness := 0.1, conductivity := 0.6, density := 1600,
         specific_heat := 840, solar_absorptance := 0.6, emissivity := 0.9 },
       { name := "Insulation_Premium", thickness := 0.1, conductivity := 0.025,
         density := 25, specific_heat := 840, solar_absorptance := 0.5,
         emissivity := 0.9 },
       { name := "Concrete", thickness := 0.2, conductivity := 1.4, density := 2300,
         specific_heat := 880, solar_absorptance := 0.6, emissivity := 0.9 }] }),
   ("Roof_Standard",
    { name := "Roof_Standard", layers :=
      [{ name := "Membrane", thickness := 0.01, conductivity := 0.2, density := 1000,
         specific_heat := 1000, solar_absorptance := 0.7, emissivity := 0.9 },
       { name := "Insulation", thickness := 0.1, conductivity := 0.04, density := 30,
         specific_heat := 840, solar_absorptance := 0.5, emissivity := 0.9 },
       { name := "Concrete", thickness := 0.15, conductivity := 1.4, density := 2300,
         specific_heat := 880, solar_absorptance := 0.6, emissivity := 0.9 }] }),
   ("Floor_Standard",
    { name := "Floor_Standard", layers :=
      [{ name := "Concrete", thickness := 0.2, conductivity := 1.4, density := 2300,
         specific_heat := 880 }] }),
   ("Window_Standard",
    { name := "Window_Standard", layers :=
      [{ name := "Glass", thickness := 0.006, conductivity := 0.8, density := 2500,
         specific_heat := 840 }] })]

/-- `BuildingModel._create_surface_from_config` (lines 170-185): every
`surface_config.get(key, default)` lookup, including the literal defaults 0.6
and 0.9 for the optical properties, which are stored on the surface even when
the config omits those keys. -/
noncomputable def create_surface_from_config
    (constructions : List (String × Construction)) (cfg : SurfaceConfig) :
    Surface :=
  let construction_name := cfg.construction.getD "Wall_Standard"
  let construction :=
    (constructions.find? (fun p => p.1 == construction_name)).map Prod.snd
  { name := cfg.name.getD "Surface",
    zone := cfg.zone.getD "Zone1",
    area := cfg.area.getD 100,
    orientation := cfg.orientation.getD "South",
    construction := construction,
    solar_absorptance := some (cfg.solar_absorptance.getD 0.6),
    emissivity := some (cfg.emissivity.getD 0.9) }

/-! ## Concrete instances used to settle the claims -/

/-- `HeatBalance` built with the default configuration. -/
noncomputable def defaultHB : HeatBalance := {}

/-- A one-layer highly insulating construction (thickness 1 m of conductivity
0.04 W/m·K, so the conduction U-value sits at its 0.05 clamp). -/
noncomputable def floorInsCons : Construction :=
  { name := "Floor_Insulated", layers :=
    [{ name := "Insulation", thickness := 1.0, conductivity := 0.04,
       density := 30, specific_heat := 840, solar_absorptance := 0.5,
       emissivity := 0.9 }] }

/-- A floor surface with zero internal radiative flux, zero solar absorptance
override and emissivity 0.9. -/
noncomputable def cexFloorSurface : Surface :=
  { name := "Floor", zone := "Zone1", area := 150, orientation := "Floor",
    construction := some floorInsCons, solar_absorptance := some 0.0,
    emissivity := some 0.9, temperature := 293.15,
    internal_radiative_flux := 0.0 }

/-- A weather record with outdoor air at 26.85 °C (300 K) and an annual mean
dry-bulb of −23.15 °C (250 K ground temperature for floors); no solar
fields. -/
noncomputable def cexColdGroundWeather : Weather :=
  { temperature := 26.85, annual_mean_temperature := some (-23.15) }

/-- A weather record with nonzero global, direct-normal and diffuse
irradiance. -/
noncomputable def wSolar : Weather :=
  { temperature := 25, solar_radiation := some 500,
    direct_normal_radiation := some 300,
    diffuse_horizontal_radiation := some 200 }

/-- A surface config that omits the `solar_absorptance` and `emissivity`
entries and names the roof construction. -/
def cexRoofCfg : SurfaceConfig :=
  { orientation := some "Roof", construction := some "Roof_Standard" }

/-- A surface whose optical overrides are really `None`, for exercising the
construction-outer-material fallback. -/
noncomputable def surfNoOverride : Surface :=
  { name := "Roof", zone := "Zone1", area := 150, orientation := "Roof",
    construction := some
      { name := "Roof_Standard", layers :=
        [{ name := "Membrane", thickness := 0.01, conductivity := 0.2,
           density := 1000, specific_heat := 1000, solar_absorptance := 0.7,
           emissivity := 0.9 },
         { name := "Concrete", thickness := 0.15, conductivity := 1.4,
           density := 2300, specific_heat := 880, solar_absorptance := 0.6,
           emissivity := 0.9 }] },
    solar_absorptance := none, emissivity := none }

/-- A one-row weather table whose only relative humidity is −5 % (and no value
above 100 %, so the cleaning step leaves it untouched). -/
def negRHRow : EpwRow :=
  { dateTime := 0, dbt := 20, rh := -5, gloHorzRad := 0, dirNormRad := 0,
    difHorzRad := 0, windSpeed := 2, atmPres := 101325, month := 1 }

/-- A well-formed weather row (RH 50 %). -/
def okRHRow : EpwRow :=
  { dateTime := 10, dbt := 25, rh := 50, gloHorzRad := 300, dirNormRad := 200,
    difHorzRad := 100, windSpeed := 3, atmPres := 101325, month := 6 }

/-- A second well-formed weather row one hour later (RH 60 %). -/
def okRHRow2 : EpwRow :=
  { dateTime := 11, dbt := 26, rh := 60, gloHorzRad := 310, dirNormRad := 210,
    difHorzRad := 110, windSpeed := 4, atmPres := 101320, month := 6 }

/-! ## Helper lemmas -/

theorem le_npClip (x lo hi : ℝ) : lo ≤ npClip x lo hi := le_max_left _ _

theorem npClip_le (x lo hi : ℝ) (h : lo ≤ hi) : npClip x lo hi ≤ hi :=
  max_le h (min_le_right _ _)

theorem npClip_eq_self {x lo hi : ℝ} (h1 : lo ≤ x) (h2 : x ≤ hi) :
    npClip x lo hi = x := by
  unfold npClip
  rw [min_eq_left h2, max_eq_right h1]

theorem npClip_mono (lo hi : ℝ) {x y : ℝ} (h : x ≤ y) :
    npClip x lo hi ≤ npClip y lo hi :=
  max_le_max le_rfl (min_le_min h le_rfl)

theorem npClip_le_of_le {x lo hi b : ℝ} (hlo : lo ≤ b) (hx : x ≤ b) :
    npClip x lo hi ≤ b :=
  max_le hlo (le_trans (min_le_left _ _) hx)

theorem le_npClip_of_le {x lo hi b : ℝ} (hhi : b ≤ hi) (hx : b ≤ x) :
    b ≤ npClip x lo hi :=
  le_trans (le_min hx hhi) (le_max_right _ _)

/-- Evaluation of `get_cop_heating` on the positive-deviation branch. -/
theorem get_cop_heating_eval_pos (sys : HVACSystem) (T : ℝ)
    (h1 : 250.0 ≤ T) (h2 : T ≤ 330.0) (h3 : 273.15 + 7.0 ≤ T) :
    sys.get_cop_heating (some T) =
      npClip (sys.cop_heating_ref *
        (1.0 + 0.015 * (T - (273.15 + 7.0)) - 0.0003 * (T - (273.15 + 7.0)) ^ 2))
        1.0 5.0 := by
  have e : npClip T 250.0 330.0 = T := npClip_eq_self h1 h2
  simp only [HVACSystem.get_cop_heating, Option.getD, e]
  rw [if_neg (by norm_num; linarith), if_neg (by norm_num; linarith)]

/-! ## Claim C3 -/

/-- C3 counterexample: the claim asserts `get_cop_heating` always returns a
value in [1, 5] also for the `HeatPumpSystem` variant; at outdoor temperature
250 K the heat-pump override (reference heating COP 4.0, default correction
coefficients) returns 9.5178535, which exceeds 5. -/
theorem C3_heat_pump_cop_exceeds_clamp :
    HeatPumpSystem.get_cop_heating defaultHeatPump (some 250) = 9.5178535 ∧
    ¬ HeatPumpSystem.get_cop_heating defaultHeatPump (some 250) ≤ 5 := by
  have h : HeatPumpSystem.get_cop_heating defaultHeatPump (some 250) = 9.5178535 := by
    simp only [HeatPumpSystem.get_cop_heating, defaultHeatPump, Option.getD]
    rw [max_eq_right (by norm_num)]
    norm_num
  exact ⟨h, by rw [h]; norm_num⟩

/-- C3 amended: for every outdoor-temperature input (including the `None`
default) the base `HVACSystem.get_cop_heating` returns a value in [1, 5];
the `HeatPumpSystem` override is only floored at 0.5 and carries no upper
clamp. -/
theorem C3_cop_heating_bounds :
    (∀ (sys : HVACSystem) (T? : Option ℝ),
       1 ≤ sys.get_cop_heating T? ∧ sys.get_cop_heating T? ≤ 5) ∧
    (∀ (sys : HVACSystem) (T? : Option ℝ),
       0.5 ≤ HeatPumpSystem.get_cop_heating sys T?) := by
  refine ⟨fun sys T? => ⟨?_, ?_⟩, fun sys T? => ?_⟩
  · simp only [HVACSystem.get_cop_heating]
    exact le_trans (by norm_num) (le_npClip _ 1.0 5.0)
  · simp only [HVACSystem.get_cop_heating]
    exact le_trans (npClip_le _ 1.0 5.0 (by norm_num)) (by norm_num)
  · simp only [HeatPumpSystem.get_cop_heating]
    exact le_max_left _ _

/-! ## Claim C4 -/

/-- C4 counterexample: the claim asserts `get_cop_heating` is non-decreasing
above its heating reference temperature 280.15 K; but the default system gives
3.5625 at 305.15 K and only 3.36 at the larger 320.15 K, because the
correction polynomial `1 + 0.015·dT − 0.0003·dT²` peaks at `dT = 25` K. -/
theorem C4_cop_heating_not_monotone :
    273.15 + 7.0 ≤ (305.15 : ℝ) ∧ (305.15 : ℝ) ≤ 320.15 ∧
    HVACSystem.get_cop_heating defaultHVAC (some 320.15) <
      HVACSystem.get_cop_heating defaultHVAC (some 305.15) := by
  have h1 : HVACSystem.get_cop_heating defaultHVAC (some 305.15) = 3.5625 := by
    rw [get_cop_heating_eval_pos defaultHVAC 305.15 (by norm_num) (by norm_num)
      (by norm_num)]
    show npClip _ 1.0 5.0 = _
    rw [npClip_eq_self (by norm_num [defaultHVAC]) (by norm_num [defaultHVAC])]
    norm_num [defaultHVAC]
  have h2 : HVACSystem.get_cop_heating defaultHVAC (some 320.15) = 3.36 := by
    rw [get_cop_heating_eval_pos defaultHVAC 320.15 (by norm_num) (by norm_num)
      (by norm_num)]
    show npClip _ 1.0 5.0 = _
    rw [npClip_eq_self (by norm_num [defaultHVAC]) (by norm_num [defaultHVAC])]
    norm_num [defaultHVAC]
  exact ⟨by norm_num, by norm_num, by rw [h1, h2]; norm_num⟩

/-- C4 amended: `get_cop_cooling` is non-increasing above the cooling
reference temperature (for a non-negative reference COP); `get_cop_heating`
is non-decreasing above its heating reference temperature 280.15 K only up to
280.15 + 25 = 305.15 K, where its correction polynomial peaks. -/
theorem C4_cop_monotone_regions (sys : HVACSystem) (T1 T2 : ℝ) :
    (0 ≤ sys.cop_cooling_ref → sys.cop_ref_temp ≤ T1 → T1 ≤ T2 →
       sys.get_cop_cooling (some T2) ≤ sys.get_cop_cooling (some T1)) ∧
    (0 ≤ sys.cop_heating_ref → 273.15 + 7.0 ≤ T1 → T1 ≤ T2 →
       T2 ≤ 305.15 →
       sys.get_cop_heating (some T1) ≤ sys.get_cop_heating (some T2)) := by
  constructor
  · intro hcref hr h12
    simp only [HVACSystem.get_cop_cooling, Option.getD]
    by_cases hr330 : sys.cop_ref_temp ≤ 330.0
    · have hc1 : sys.cop_ref_temp ≤ npClip T1 250.0 330.0 :=
        le_npClip_of_le hr330 hr
      have h12c : npClip T1 250.0 330.0 ≤ npClip T2 250.0 330.0 :=
        npClip_mono _ _ h12
      apply npClip_mono
      have hd1 : 0 ≤ npClip T1 250.0 330.0 - sys.cop_ref_temp := by linarith
      have hd12 : npClip T1 250.0 330.0 - sys.cop_ref_temp ≤
          npClip T2 250.0 330.0 - sys.cop_ref_temp := by linarith
      nlinarith [mul_nonneg hcref (mul_nonneg
        (sub_nonneg.2 hd12)
        (by linarith : (0:ℝ) ≤ (npClip T1 250.0 330.0 - sys.cop_ref_temp) +
          (npClip T2 250.0 330.0 - sys.cop_ref_temp))),
        mul_nonneg hcref (sub_nonneg.2 hd12)]
    · push_neg at hr330
      have e12 : npClip T1 250.0 330.0 = npClip T2 250.0 330.0 := by
        unfold npClip
        rw [min_eq_right (by linarith : (330.0:ℝ) ≤ T1),
            min_eq_right (by linarith : (330.0:ℝ) ≤ T2)]
      rw [e12]
  · intro hhref h1lo h12 h2hi
    rw [get_cop_heating_eval_pos sys T1 (by linarith) (by linarith) h1lo,
        get_cop_heating_eval_pos sys T2 (by linarith) (by linarith) (by linarith)]
    apply npClip_mono
    nlinarith [mul_nonneg hhref (mul_nonneg
      (sub_nonneg.2 h12)
      (show (0:ℝ) ≤ 0.015 - 0.0003 * ((T1 - (273.15 + 7.0)) + (T2 - (273.15 + 7.0)))
        by nlinarith))]

/-- C4 witness: the monotonicity theorem applied at the default system with
concrete temperatures on both regions. -/
theorem C4_cop_monotone_regions_witness :
    defaultHVAC.get_cop_cooling (some 310.15) ≤
      defaultHVAC.get_cop_cooling (some 309.15) ∧
    defaultHVAC.get_cop_heating (some 281.15) ≤
      defaultHVAC.get_cop_heating (some 291.15) :=
  ⟨(C4_cop_monotone_regions defaultHVAC 309.15 310.15).1
      (by norm_num [defaultHVAC]) (by norm_num [defaultHVAC]) (by norm_num),
   (C4_cop_monotone_regions defaultHVAC 281.15 291.15).2
      (by norm_num [defaultHVAC]) (by norm_num) (by norm_num) (by norm_num)⟩

/-! ## Claim C8 -/

/-- C8: `compute_sensible_balance` restores the zone air temperature: the
zone state it returns carries the same `temperature` the zone had before the
probe, for every zone, weather record and probe temperature. -/
theorem C8_sensible_balance_restores_temperature
    (hb : HeatBalance) (z : Zone) (w : Weather) (T_zoneK : ℝ) :
    ((compute_sensible_balance hb z w T_zoneK).2).temperature = z.temperature :=
  rfl

/-! ## Claim C9 -/

/-- Shared helper: the solar-radiation routine short-circuits to 0 on a
floor orientation. -/
theorem floor_solar_zero (s : Surface) (w : Weather)
    (h : s.orientation = "Floor") :
    calculate_surface_solar_radiation s w = 0 := by
  have hb : (pyLower s.orientation == "floor") = true := by rw [h]; decide
  simp only [calculate_surface_solar_radiation, hb, if_true]
  norm_num

/-- C9: `_calculate_surface_solar_radiation` returns exactly 0 for every
surface whose orientation is `Floor`, for every weather input. -/
theorem C9_floor_surface_solar_zero (s : Surface) (w : Weather)
    (h : s.orientation = "Floor") :
    calculate_surface_solar_radiation s w = 0 :=
  floor_solar_zero s w h

/-- C9 witness: the theorem applied to a concrete floor surface and a weather
record with nonzero GHI/DNI/DHI. -/
theorem C9_floor_surface_solar_zero_witness :
    wSolar.solar_radiation = some 500 ∧
    wSolar.direct_normal_radiation = some 300 ∧
    wSolar.diffuse_horizontal_radiation = some 200 ∧
    calculate_surface_solar_radiation cexFloorSurface wSolar = 0 :=
  ⟨rfl, rfl, rfl, C9_floor_surface_solar_zero cexFloorSurface wSolar rfl⟩

/-! ## Claim C5 -/

/-- C5 counterexample: a surface config that omits `solar_absorptance` and
`emissivity` does not produce an override-free surface: the built surface
carries the literal defaults `some 0.6`/`some 0.9`, and the solar absorptance
the heat-balance solve uses is 0.6, not the 0.7 of the roof construction's
outer material (Membrane). -/
theorem C5_omitted_override_not_inherited :
    cexRoofCfg.solar_absorptance = none ∧ cexRoofCfg.emissivity = none ∧
    (create_surface_from_config create_constructions cexRoofCfg).solar_absorptance
      = some 0.6 ∧
    ((create_surface_from_config create_constructions cexRoofCfg).construction.bind
        Construction.outer_material).map Material.solar_absorptance = some 0.7 ∧
    surfSolarAbsorptance (create_surface_from_config create_constructions cexRoofCfg)
      = 0.6 ∧
    (0.6 : ℝ) ≠ 0.7 := by
  refine ⟨rfl, rfl, rfl, rfl, rfl, by norm_num⟩

/-- C5 amended: `_create_surface_from_config` always stores explicit optical
overrides (the config value, or the literal defaults 0.6/0.9 when the entry is
omitted), and the surface-temperature solve uses exactly that stored value;
the inheritance from the construction's outer material only happens for a
surface whose override field is `None`, which this constructor never
produces. -/
theorem C5_config_surface_defaults (cons : List (String × Construction))
    (cfg : SurfaceConfig) :
    (create_surface_from_config cons cfg).solar_absorptance
      = some (cfg.solar_absorptance.getD 0.6) ∧
    (create_surface_from_config cons cfg).emissivity
      = some (cfg.emissivity.getD 0.9) ∧
    surfSolarAbsorptance (create_surface_from_config cons cfg)
      = cfg.solar_absorptance.getD 0.6 ∧
    surfEmissivity (create_surface_from_config cons cfg)
      = cfg.emissivity.getD 0.9 ∧
    (∀ (s : Surface) (m : Material), s.solar_absorptance = none →
       s.construction.bind Construction.outer_material = some m →
       surfSolarAbsorptance s = m.solar_absorptance) ∧
    (∀ (s : Surface) (m : Material), s.emissivity = none →
       s.construction.bind Construction.outer_material = some m →
       surfEmissivity s = m.emissivity) := by
  refine ⟨rfl, rfl, rfl, rfl, ?_, ?_⟩
  · intro s m h1 h2
    unfold surfSolarAbsorptance
    rw [h1, h2]
  · intro s m h1 h2
    unfold surfEmissivity
    rw [h1, h2]

/-- C5 witness: the amended theorem applied to the roof config (defaults
stored) and to a surface with genuine `None` overrides (fallback to the
Membrane outer material, absorptance 0.7, emissivity 0.9). -/
theorem C5_config_surface_defaults_witness :
    (create_surface_from_config create_constructions cexRoofCfg).emissivity
      = some 0.9 ∧
    surfSolarAbsorptance surfNoOverride = 0.7 ∧
    surfEmissivity surfNoOverride = 0.9 :=
  ⟨(C5_config_surface_defaults create_constructions cexRoofCfg).2.1,
   (C5_config_surface_defaults create_constructions cexRoofCfg).2.2.2.2.1
     surfNoOverride _ rfl rfl,
   (C5_config_surface_defaults create_constructions cexRoofCfg).2.2.2.2.2
     surfNoOverride _ rfl rfl⟩

/-! ## Claim C6 -/

/-- C6 counterexample: a table whose only RH value is −5 % has no value above
100 %, so the cleaning step of `_read_epw` leaves it untouched and
`get_hourly_data` exposes the humidity fraction −0.05, outside [0, 1]. -/
theorem C6_negative_humidity_not_clamped :
    clampRH [negRHRow] = [negRHRow] ∧
    get_hourly_data (clampRH [negRHRow]) 0 = some (rowToRecord negRHRow) ∧
    (rowToRecord negRHRow).humidity = -(1 / 20) ∧
    ¬ (0 ≤ (rowToRecord negRHRow).humidity) := by
  refine ⟨by decide, rfl, by norm_num [rowToRecord, negRHRow],
    by norm_num [rowToRecord, negRHRow]⟩

/-- A row chosen by the argmin scan is one of the scanned rows. -/
theorem foldl_pickNearest_mem (q : ℤ) :
    ∀ (l : List EpwRow) (b : EpwRow),
      l.foldl (pickNearest q) b = b ∨ l.foldl (pickNearest q) b ∈ l := by
  intro l
  induction l with
  | nil => intro b; left; rfl
  | cons a as ih =>
    intro b
    rw [List.foldl_cons]
    rcases ih (pickNearest q b a) with h | h
    · rw [h]
      unfold pickNearest
      split
      · right; exact List.mem_cons_self a as
      · left; rfl
    · right; exact List.mem_cons_of_mem a h

/-- `nearestRow` only returns members of the table. -/
theorem nearestRow_mem {q : ℤ} {l : List EpwRow} {r : EpwRow}
    (h : nearestRow q l = some r) : r ∈ l := by
  cases l with
  | nil => simp [nearestRow] at h
  | cons a as =>
    simp only [nearestRow, Option.some.injEq] at h
    rcases foldl_pickNearest_mem q as a with h2 | h2
    · rw [← h, h2]; exact List.mem_cons_self a as
    · rw [← h]; exact List.mem_cons_of_mem a h2

/-- The argmin scan minimises the distance over the incumbent and all scanned
rows. -/
theorem foldl_pickNearest_min (q : ℤ) :
    ∀ (l : List EpwRow) (b : EpwRow),
      |(l.foldl (pickNearest q) b).dateTime - q| ≤ |b.dateTime - q| ∧
      ∀ r ∈ l, |(l.foldl (pickNearest q) b).dateTime - q| ≤ |r.dateTime - q| := by
  intro l
  induction l with
  | nil => intro b; exact ⟨le_rfl, by simp⟩
  | cons a as ih =>
    intro b
    rw [List.foldl_cons]
    have hstep : |(pickNearest q b a).dateTime - q| ≤ |b.dateTime - q| ∧
        |(pickNearest q b a).dateTime - q| ≤ |a.dateTime - q| := by
      unfold pickNearest
      split
      · constructor
        · next hlt => exact le_of_lt hlt
        · exact le_rfl
      · constructor
        · exact le_rfl
        · next hlt => exact not_lt.mp hlt
    obtain ⟨ih1, ih2⟩ := ih (pickNearest q b a)
    refine ⟨le_trans ih1 hstep.1, ?_⟩
    intro r hr
    rcases List.mem_cons.mp hr with h | h
    · rw [h]
      exact le_trans ih1 hstep.2
    · exact ih2 r h

/-- If the incumbent is already at least as close as every scanned row, the
argmin scan keeps it. -/
theorem foldl_pickNearest_keep (q : ℤ) :
    ∀ (l : List EpwRow) (b : EpwRow),
      (∀ r ∈ l, |b.dateTime - q| ≤ |r.dateTime - q|) →
      l.foldl (pickNearest q) b = b := by
  intro l
  induction l with
  | nil => intro b _; rfl
  | cons a as ih =>
    intro b h
    rw [List.foldl_cons]
    have e : pickNearest q b a = b := by
      unfold pickNearest
      rw [if_neg (not_lt.mpr (h a (List.mem_cons_self a as)))]
    rw [e]
    exact ih b (fun r hr => h r (List.mem_cons_of_mem a hr))

/-- With strictly increasing timestamps all of them at or before the query,
the argmin scan walks to the last row. -/
theorem foldl_pickNearest_last (q : ℤ) :
    ∀ (l : List EpwRow) (b : EpwRow),
      l.Pairwise (fun x y => x.dateTime < y.dateTime) →
      (∀ r ∈ l, b.dateTime < r.dateTime) →
      (∀ r ∈ l, r.dateTime ≤ q) →
      b.dateTime ≤ q →
      l.foldl (pickNearest q) b = (l.getLast?).getD b := by
  intro l
  induction l with
  | nil => intro b _ _ _ _; rfl
  | cons a as ih =>
    intro b hpw hgt hle hbq
    rw [List.foldl_cons]
    have haq : a.dateTime ≤ q := hle a (List.mem_cons_self a as)
    have e : pickNearest q b a = a := by
      unfold pickNearest
      rw [if_pos]
      rw [abs_of_nonpos (by linarith : a.dateTime - q ≤ 0),
          abs_of_nonpos (by linarith : b.dateTime - q ≤ 0)]
      have := hgt a (List.mem_cons_self a as)
      linarith
    rw [e]
    rw [ih a (List.pairwise_cons.mp hpw).2
      (fun r hr => (List.pairwise_cons.mp hpw).1 r hr)
      (fun r hr => hle r (List.mem_cons_of_mem a hr)) haq]
    cases as with
    | nil => simp [List.getLast?]
    | cons c cs =>
      rw [List.getLast?_cons_cons]
      cases h : (c :: cs).getLast? with
      | none => exact absurd (List.getLast?_eq_none_iff.mp h) (List.cons_ne_nil c cs)
      | some y => simp [h]

/-- In a strictly increasing list every member's timestamp is at most the last
one's. -/
theorem pairwise_le_getLast :
    ∀ (l : List EpwRow) (x y : EpwRow),
      l.Pairwise (fun a b => a.dateTime < b.dateTime) →
      x ∈ l → l.getLast? = some y → x.dateTime ≤ y.dateTime := by
  intro l
  induction l with
  | nil => intro x y _ hx _; exact absurd hx (List.not_mem_nil x)
  | cons a as ih =>
    intro x y hpw hx hy
    cases as with
    | nil =>
      rw [List.mem_singleton.mp hx]
      simp only [List.getLast?_singleton, Option.some.injEq] at hy
      rw [hy]
    | cons c cs =>
      rw [List.getLast?_cons_cons] at hy
      rcases List.mem_cons.mp hx with h | h
      · obtain ⟨h9, hy2⟩ := List.mem_getLast?_eq_getLast (Option.mem_def.mpr hy)
        have hymem : y ∈ c :: cs := hy2 ▸ List.getLast_mem h9
        have := (List.pairwise_cons.mp hpw).1 y hymem
        rw [h]
        linarith
      · exact ih x y (List.pairwise_cons.mp hpw).2 h hy

/-- C6 amended: the RH clamp in `_read_epw` fires only when some source value
exceeds 100 %: provided every source RH is non-negative, or some value above
100 triggers the global clamp, the humidity fraction `get_hourly_data`
returns lies in [0, 1].  (A negative RH with no value above 100 passes
through unclamped, per the counterexample.) -/
theorem C6_humidity_in_range (rows : List EpwRow) (q : ℤ) (rec : WeatherRecordQ)
    (hsrc : (∀ r ∈ rows, 0 ≤ r.rh) ∨ (∃ r ∈ rows, 100 < r.rh))
    (hget : get_hourly_data (clampRH rows) q = some rec) :
    0 ≤ rec.humidity ∧ rec.humidity ≤ 1 := by
  obtain ⟨r, hr_eq⟩ : ∃ r, nearestRow q (clampRH rows) = some r := by
    cases h : nearestRow q (clampRH rows) with
    | none => rw [get_hourly_data, h] at hget; exact absurd hget (by simp)
    | some r => exact ⟨r, rfl⟩
  have hrec : rec = rowToRecord r := by
    rw [get_hourly_data, hr_eq] at hget
    simpa using hget.symm
  have hmem : r ∈ clampRH rows := nearestRow_mem hr_eq
  have hbound : 0 ≤ r.rh ∧ r.rh ≤ 100 := by
    by_cases hany : (rows.any fun r => r.rh > 100) = true
    · rw [clampRH, if_pos hany] at hmem
      obtain ⟨r0, _, hr0⟩ := List.mem_map.mp hmem
      rw [← hr0]
      constructor
      · exact le_min (le_max_right _ _) (by norm_num)
      · exact min_le_right _ _
    · rw [clampRH, if_neg hany] at hmem
      have hub : r.rh ≤ 100 := by
        by_contra hcon
        exact hany (List.any_eq_true.mpr ⟨r, hmem, by simpa using lt_of_not_le hcon⟩)
      rcases hsrc with hall | ⟨r0, hr0m, hr0⟩
      · exact ⟨hall r hmem, hub⟩
      · exact absurd (List.any_eq_true.mpr ⟨r0, hr0m, by simpa using hr0⟩) hany
  rw [hrec]
  unfold rowToRecord
  constructor
  · exact div_nonneg hbound.1 (by norm_num)
  · exact (div_le_one (by norm_num)).mpr hbound.2

/-- C6 witness: a well-formed one-row table yields a humidity fraction in
[0, 1]. -/
theorem C6_humidity_in_range_witness :
    0 ≤ (rowToRecord okRHRow).humidity ∧ (rowToRecord okRHRow).humidity ≤ 1 :=
  C6_humidity_in_range [okRHRow] 10 (rowToRecord okRHRow)
    (Or.inl (by decide)) rfl

/-! ## Claim C10 -/

/-- C10: on a non-empty parsed table `get_hourly_data` always returns a
record; it is built from a row minimising the absolute time distance to the
query, and for a strictly increasing time axis a query at or before the first
timestamp yields the first row while a query at or after the last timestamp
yields the last row. -/
theorem C10_get_hourly_data_total_nearest (rows : List EpwRow) (q : ℤ)
    (hne : rows ≠ []) :
    ∃ r ∈ rows, get_hourly_data rows q = some (rowToRecord r) ∧
      (∀ r2 ∈ rows, |r.dateTime - q| ≤ |r2.dateTime - q|) ∧
      (rows.Pairwise (fun a b => a.dateTime < b.dateTime) →
        (∀ r0, rows.head? = some r0 → q ≤ r0.dateTime → r = r0) ∧
        (∀ rl, rows.getLast? = some rl → rl.dateTime ≤ q → r = rl)) := by
  cases rows with
  | nil => exact absurd rfl hne
  | cons a as =>
    refine ⟨as.foldl (pickNearest q) a, ?_, rfl, ?_, ?_⟩
    · rcases foldl_pickNearest_mem q as a with h | h
      · rw [h]; exact List.mem_cons_self a as
      · exact List.mem_cons_of_mem a h
    · intro r2 hr2
      obtain ⟨h1, h2⟩ := foldl_pickNearest_min q as a
      rcases List.mem_cons.mp hr2 with h | h
      · rw [h]; exact h1
      · exact h2 r2 h
    · intro hpw
      constructor
      · intro r0 h0 hq
        have hr0 : r0 = a := by simpa using h0.symm
        rw [hr0]
        apply foldl_pickNearest_keep
        intro r hr
        have hlt := (List.pairwise_cons.mp hpw).1 r hr
        have haq : q ≤ a.dateTime := by rw [← hr0]; exact hq
        rw [abs_of_nonneg (by linarith : (0:ℤ) ≤ a.dateTime - q),
            abs_of_nonneg (by linarith : (0:ℤ) ≤ r.dateTime - q)]
        linarith
      · intro rl hl hq
        have hall : ∀ r ∈ a :: as, r.dateTime ≤ rl.dateTime :=
          fun r hr => pairwise_le_getLast (a :: as) r rl hpw hr hl
        have hres := foldl_pickNearest_last q as a
          (List.pairwise_cons.mp hpw).2
          (fun r hr => (List.pairwise_cons.mp hpw).1 r hr)
          (fun r hr =>
            le_trans (hall r (List.mem_cons_of_mem a hr)) hq)
          (le_trans (hall a (List.mem_cons_self a as)) hq)
        rw [hres]
        cases as with
        | nil =>
          have : rl = a := by simpa using hl.symm
          rw [this]; rfl
        | cons c cs =>
          rw [List.getLast?_cons_cons] at hl
          rw [hl]
          rfl

/-- C10 witness: the theorem applied to a concrete two-row table with a query
after the last timestamp. -/
theorem C10_get_hourly_data_total_nearest_witness :
    ∃ r ∈ [okRHRow, okRHRow2],
      get_hourly_data [okRHRow, okRHRow2] 100 = some (rowToRecord r) ∧
      (∀ r2 ∈ [okRHRow, okRHRow2], |r.dateTime - 100| ≤ |r2.dateTime - 100|) ∧
      (([okRHRow, okRHRow2] : List EpwRow).Pairwise
          (fun a b => a.dateTime < b.dateTime) →
        (∀ r0, ([okRHRow, okRHRow2] : List EpwRow).head? = some r0 →
          100 ≤ r0.dateTime → r = r0) ∧
        (∀ rl, ([okRHRow, okRHRow2] : List EpwRow).getLast? = some rl →
          rl.dateTime ≤ 100 → r = rl)) :=
  C10_get_hourly_data_total_nearest [okRHRow, okRHRow2] 100 (by simp)

/-! ## Claim C1

`compute_sensible_balance` recomputes every surface flux and temperature from
scratch, so its returned heat flow only depends on the immutable zone/surface
data: the congruence lemmas below make that precise, and let the two probes of
`_calculate_hvac_load` be read as independent evaluations at the two
setpoints. -/

/-- `surfaceTempStep` only reads the orientation, construction, optical
overrides and internal flux of the surface. -/
theorem surfaceTempStep_congr (s1 s2 : Surface)
    (ho : s1.orientation = s2.orientation)
    (hc : s1.construction = s2.construction)
    (hsa : s1.solar_absorptance = s2.solar_absorptance)
    (hem : s1.emissivity = s2.emissivity)
    (hfl : s1.internal_radiative_flux = s2.internal_radiative_flux)
    (Tz To he Is Te U Text : ℝ) :
    surfaceTempStep s1 Tz To he Is Te U Text
      = surfaceTempStep s2 Tz To he Is Te U Text := by
  simp only [surfaceTempStep, surfEmissivity, surfSolarAbsorptance,
    innerEmissivity, ho, hc, hsa, hem, hfl]

/-- The exterior-temperature iteration inherits the congruence of its step. -/
theorem surfaceTempIterate_congr (s1 s2 : Surface)
    (ho : s1.orientation = s2.orientation)
    (hc : s1.construction = s2.construction)
    (hsa : s1.solar_absorptance = s2.solar_absorptance)
    (hem : s1.emissivity = s2.emissivity)
    (hfl : s1.internal_radiative_flux = s2.internal_radiative_flux)
    (Tz To he Is Te U tol : ℝ) :
    ∀ (n : ℕ) (Text : ℝ),
      surfaceTempIterate s1 Tz To he Is Te U tol n Text
        = surfaceTempIterate s2 Tz To he Is Te U tol n Text := by
  intro n
  induction n with
  | zero => intro Text; rfl
  | succ k ih =>
    intro Text
    simp only [surfaceTempIterate,
      surfaceTempStep_congr s1 s2 ho hc hsa hem hfl, ih]

/-- `_calculate_surface_solar_radiation` only reads the orientation. -/
theorem solar_radiation_congr (s1 s2 : Surface)
    (ho : s1.orientation = s2.orientation) (w : Weather) :
    calculate_surface_solar_radiation s1 w
      = calculate_surface_solar_radiation s2 w := by
  simp only [calculate_surface_solar_radiation, ho]

/-- The full surface solve only reads the orientation, construction, optical
overrides and internal flux of the surface (in particular, not its current
temperature). -/
theorem surfaceSolve_congr (hb : HeatBalance) (s1 s2 : Surface)
    (ho : s1.orientation = s2.orientation)
    (hc : s1.construction = s2.construction)
    (hsa : s1.solar_absorptance = s2.solar_absorptance)
    (hem : s1.emissivity = s2.emissivity)
    (hfl : s1.internal_radiative_flux = s2.internal_radiative_flux)
    (w : Weather) (Tz : ℝ) :
    surfaceSolve hb s1 w Tz = surfaceSolve hb s2 w Tz := by
  simp only [surfaceSolve, ho, hc, hfl, solar_radiation_congr s1 s2 ho w,
    surfaceTempIterate_congr s1 s2 ho hc hsa hem hfl, innerEmissivity]

/-- Congruence for the returned interior surface temperature. -/
theorem calculate_surface_temperature_congr (hb : HeatBalance)
    (s1 s2 : Surface)
    (ho : s1.orientation = s2.orientation)
    (hc : s1.construction = s2.construction)
    (hsa : s1.solar_absorptance = s2.solar_absorptance)
    (hem : s1.emissivity = s2.emissivity)
    (hfl : s1.internal_radiative_flux = s2.internal_radiative_flux)
    (w : Weather) (Tz : ℝ) :
    calculate_surface_temperature hb s1 w Tz
      = calculate_surface_temperature hb s2 w Tz :=
  congrArg Prod.snd (surfaceSolve_congr hb s1 s2 ho hc hsa hem hfl w Tz)

/-- Canonical form of `compute_sensible_balance`: the returned heat flow and
zone state expressed through `csbSurfaces`/`csbFlux`. -/
theorem csb_eq_pair (hb : HeatBalance) (z : Zone) (w : Weather) (T : ℝ) :
    compute_sensible_balance hb z w T
      = (calculate_convection_heat
            { z with surfaces := csbSurfaces hb z w T, temperature := T }
          + calculate_ventilation_heat hb
            { z with surfaces := csbSurfaces hb z w T, temperature := T } w
          + (split_internal_loads z).1 + 0.2 * calculate_solar_gain z w,
         { z with surfaces := csbSurfaces hb z w T }) := by
  have hS : ((((z.surfaces.map
      (fun s => ({ s with internal_radiative_flux := 0.0 } : Surface))).map
      (fun s => ({ s with internal_radiative_flux := csbFlux z w } : Surface))).map
      (fun s => ({ s with temperature := calculate_surface_temperature hb s w T } :
        Surface)))) = csbSurfaces hb z w T := by
    simp only [csbSurfaces, List.map_map]
    exact List.map_congr_left (fun s _ => rfl)
  simp only [compute_sensible_balance]
  rw [show distributeFlux
      { z with surfaces := (z.surfaces.map
          (fun s => ({ s with internal_radiative_flux := 0.0 } : Surface))) }
      (split_internal_loads z).2.1 (0.8 * calculate_solar_gain z w)
      = csbFlux z w from rfl]
  rw [hS]

/-- `distributeFlux` only depends on the clipped surface areas (besides its
explicit arguments). -/
theorem distributeFlux_congr (z1 z2 : Zone) (Qr Qs : ℝ)
    (h : z1.surfaces.map (fun s => max 0.0 s.area)
       = z2.surfaces.map (fun s => max 0.0 s.area)) :
    distributeFlux z1 Qr Qs = distributeFlux z2 Qr Qs := by
  simp only [distributeFlux, h]

/-- `compute_sensible_balance` is unchanged when the zone's surfaces carry
modified mutable state (temperature / internal flux): both are overwritten
before use. -/
theorem csb_of_mutated (hb : HeatBalance) (z : Zone) (w : Weather) (T : ℝ)
    (f g : Surface → ℝ) :
    compute_sensible_balance hb
      { z with surfaces := z.surfaces.map (mutSurf f g) } w T
      = compute_sensible_balance hb z w T := by
  have hgain : calculate_solar_gain
      { z with surfaces := z.surfaces.map (mutSurf f g) } w
      = calculate_solar_gain z w := by
    simp only [calculate_solar_gain, List.map_map]
    exact congrArg _ (List.map_congr_left (fun s _ => rfl))
  have hsplit : split_internal_loads
      { z with surfaces := z.surfaces.map (mutSurf f g) }
      = split_internal_loads z := rfl
  have hflux : csbFlux { z with surfaces := z.surfaces.map (mutSurf f g) } w
      = csbFlux z w := by
    simp only [csbFlux]
    rw [hgain, hsplit]
    apply distributeFlux_congr
    simp only [List.map_map]
    exact List.map_congr_left (fun s _ => rfl)
  have hsurf : csbSurfaces hb
      { z with surfaces := z.surfaces.map (mutSurf f g) } w T
      = csbSurfaces hb z w T := by
    simp only [csbSurfaces, hflux, List.map_map]
    refine List.map_congr_left (fun s _ => ?_)
    show ({ mutSurf f g s with
      temperature := calculate_surface_temperature hb
        { mutSurf f g s with internal_radiative_flux := csbFlux z w } w T,
      internal_radiative_flux := csbFlux z w } : Surface) = _
    rw [calculate_surface_temperature_congr hb
      { mutSurf f g s with internal_radiative_flux := csbFlux z w }
      { s with internal_radiative_flux := csbFlux z w }
      rfl rfl rfl rfl rfl w T]
    rfl
  rw [csb_eq_pair, csb_eq_pair, hgain, hsurf, hsplit]

/-- The second sensible-balance probe of `_calculate_hvac_load` evaluates to
the same result it would on the pristine zone: the state left by the first
probe is overwritten before use. -/
theorem csb_after_csb (hb : HeatBalance) (z : Zone) (w : Weather)
    (T1 T2 : ℝ) :
    compute_sensible_balance hb (compute_sensible_balance hb z w T1).2 w T2
      = compute_sensible_balance hb z w T2 := by
  have hshape : (compute_sensible_balance hb z w T1).2
      = { z with surfaces := z.surfaces.map (mutSurf
          (fun s => calculate_surface_temperature hb
            { s with internal_radiative_flux := csbFlux z w } w T1)
          (fun _ => csbFlux z w)) } := by
    rw [csb_eq_pair]
    rfl
  rw [hshape]
  exact csb_of_mutated hb z w T2 _ _

/-- Rectification as a `max`. -/
theorem ite_pos_eq_max (x : ℝ) : (if x > 0 then x else 0.0) = max 0 x := by
  split
  · next h => exact (max_eq_right (le_of_lt h)).symm
  · next h =>
    rw [max_eq_left (le_of_not_lt h)]
    norm_num

/-- C1: `_calculate_hvac_load` evaluates `compute_sensible_balance` at the
cooling setpoint and at the heating setpoint and stores
`cooling_load = max(0, Q_at_cool_setpoint)` and
`heating_load = max(0, −Q_at_heat_setpoint)`; both stored loads are
non-negative. -/
theorem C1_hvac_load_from_setpoint_balances (hb : HeatBalance)
    (hvac : HVACSystem) (z : Zone) (w : Weather) :
    (calculate_hvac_load hb hvac z w).cooling_load
      = max 0 (compute_sensible_balance hb z w hvac.cooling_setpoint).1 ∧
    (calculate_hvac_load hb hvac z w).heating_load
      = max 0 (-(compute_sensible_balance hb z w hvac.heating_setpoint).1) ∧
    0 ≤ (calculate_hvac_load hb hvac z w).cooling_load ∧
    0 ≤ (calculate_hvac_load hb hvac z w).heating_load := by
  have hcool : (calculate_hvac_load hb hvac z w).cooling_load
      = max 0 (compute_sensible_balance hb z w hvac.cooling_setpoint).1 := by
    show (if (compute_sensible_balance hb z w hvac.cooling_setpoint).1 > 0 then
      (compute_sensible_balance hb z w hvac.cooling_setpoint).1 else 0.0) = _
    rw [ite_pos_eq_max]
  have hheat : (calculate_hvac_load hb hvac z w).heating_load
      = max 0 (-(compute_sensible_balance hb z w hvac.heating_setpoint).1) := by
    show max 0.0 (-(compute_sensible_balance hb
        (compute_sensible_balance hb z w hvac.cooling_setpoint).2
        w hvac.heating_setpoint).1) = _
    rw [csb_after_csb]
    norm_num
  refine ⟨hcool, hheat, ?_, ?_⟩
  · rw [hcool]; exact le_max_left _ _
  · rw [hheat]; exact le_max_left _ _

/-! ## Claim C2 -/

/-- Every iterate of the exterior-temperature loop lands in the [230, 340] K
clamp. -/
theorem surfaceTempStep_mem_clamp (s : Surface)
    (Tz To he Is Te U Text : ℝ) :
    230 ≤ surfaceTempStep s Tz To he Is Te U Text ∧
      surfaceTempStep s Tz To he Is Te U Text ≤ 340 := by
  unfold surfaceTempStep
  constructor
  · exact le_trans (by norm_num) (le_npClip _ _ _)
  · exact le_trans (npClip_le _ _ _ (by norm_num)) (by norm_num)

/-- After at least one iteration the loop variable lies in [230, 340] K. -/
theorem surfaceTempIterate_mem_clamp (s : Surface)
    (Tz To he Is Te U tol : ℝ) :
    ∀ (n : ℕ) (Text : ℝ),
      230 ≤ surfaceTempIterate s Tz To he Is Te U tol (n + 1) Text ∧
      surfaceTempIterate s Tz To he Is Te U tol (n + 1) Text ≤ 340 := by
  intro n
  induction n with
  | zero =>
    intro Text
    rw [surfaceTempIterate]
    split
    · exact surfaceTempStep_mem_clamp s Tz To he Is Te U Text
    · exact surfaceTempStep_mem_clamp s Tz To he Is Te U Text
  | succ k ih =>
    intro Text
    rw [surfaceTempIterate]
    split
    · exact surfaceTempStep_mem_clamp s Tz To he Is Te U Text
    · exact ih _

/-- C2 amended: the exterior surface temperature solved by
`calculate_surface_temperature` always lies within the solver clamp range
[230 K, 340 K] — but (per the counterexample) it need not stay above the
outdoor air temperature: with no solar input and a colder radiative
environment the solution converges strictly below outdoor air. -/
theorem C2_exterior_temperature_in_clamp (hb : HeatBalance) (s : Surface)
    (w : Weather) (T_zone0 : ℝ) :
    230 ≤ (surfaceSolve hb s w T_zone0).1 ∧
      (surfaceSolve hb s w T_zone0).1 ≤ 340 := by
  show 230 ≤ (surfaceSolve hb s w T_zone0).1 ∧ _
  simp only [surfaceSolve]
  exact surfaceTempIterate_mem_clamp s _ _ _ _ _ _ _ 29 _

/-- One step of the counterexample configuration (floor surface over 250 K
ground, outdoor 300 K, zone 320 K, conduction U at its 0.05 clamp, no solar,
no internal flux) maps any iterate in [230, 300] into [230, 295.5]: the
long-wave sink at 250 K dominates the balance. -/
theorem cexStepBound (s : Surface) (hem : surfEmissivity s = 0.9)
    (hq : s.internal_radiative_flux = 0.0) (T : ℝ)
    (h230 : 230 ≤ T) (h300 : T ≤ 300) :
    230 ≤ surfaceTempStep s 320 300 0.5 0.0 250 0.05 T ∧
      surfaceTempStep s 320 300 0.5 0.0 250 0.05 T ≤ 295.5 := by
  simp only [surfaceTempStep, hem, hq]
  constructor
  · exact le_trans (by norm_num) (le_npClip _ _ _)
  · generalize hTm : npClip T 200.0 330.0 = Tm
    have hTm1 : (230:ℝ) ≤ Tm := by
      rw [← hTm]; exact le_npClip_of_le (by norm_num) h230
    have hTm2 : Tm ≤ 300 := by
      rw [← hTm]; exact npClip_le_of_le (by norm_num) h300
    generalize hR : npClip (4.0 * 0.9 * stefan_boltzmann * Tm ^ 3) 0.1 20.0 = R
    have hR1 : (2.48:ℝ) ≤ R := by
      rw [← hR]
      apply le_npClip_of_le (by norm_num)
      simp only [stefan_boltzmann]
      nlinarith [pow_le_pow_left (by norm_num : (0:ℝ) ≤ 230) hTm1 3]
    generalize hE :
      npClip ((250 ^ 4 - Tm ^ 4) / (4.0 * Tm ^ 3) + Tm) 150.0 330.0 = E
    have hE1 : E ≤ 275 := by
      rw [← hE]
      apply npClip_le_of_le (by norm_num)
      have hTm3 : (0:ℝ) < 4.0 * Tm ^ 3 := by positivity
      have hpoly : (250:ℝ) ^ 4 - Tm ^ 4 ≤ (275 - Tm) * (4.0 * Tm ^ 3) := by
        nlinarith [mul_nonneg (by linarith : (0:ℝ) ≤ Tm - 230)
            (by linarith : (0:ℝ) ≤ 300 - Tm),
          mul_nonneg (mul_nonneg (by linarith : (0:ℝ) ≤ Tm - 230)
            (by linarith : (0:ℝ) ≤ 300 - Tm)) (by linarith : (0:ℝ) ≤ Tm),
          mul_nonneg (mul_nonneg (mul_nonneg
            (by linarith : (0:ℝ) ≤ Tm - 230)
            (by linarith : (0:ℝ) ≤ 300 - Tm)) (by linarith : (0:ℝ) ≤ Tm))
            (by linarith : (0:ℝ) ≤ Tm)]
      have := (div_le_iff hTm3).mpr hpoly
      linarith
    generalize hH : max 0.1 (calculate_interior_convection_coefficient
        s.orientation (some |(320:ℝ) - T|) +
        npClip (4.0 * innerEmissivity s * stefan_boltzmann *
          npClip 320 250.0 330.0 ^ 3) 0.1 10.0) = H
    have hH1 : (0.1:ℝ) ≤ H := by rw [← hH]; exact le_max_left _ _
    have hU1 : (0:ℝ) ≤ 0.05 * H / (H + 0.05) :=
      div_nonneg (by linarith) (by linarith)
    have hU2 : 0.05 * H / (H + 0.05) ≤ 0.05 := by
      rw [div_le_iff (by linarith : (0:ℝ) < H + 0.05)]
      nlinarith
    have hmax2 : max (0.5 + R + 0.05 * H / (H + 0.05)) 1e-6
        = 0.5 + R + 0.05 * H / (H + 0.05) :=
      max_eq_left (by linarith)
    apply npClip_le_of_le (by norm_num)
    rw [hmax2]
    have hD : (0:ℝ) < 0.5 + R + 0.05 * H / (H + 0.05) := by linarith
    have hfrac : (0.5 * 300 + R * E + surfSolarAbsorptance s * 0.0
          + 0.05 * H / (H + 0.05) * 320
          - 0.05 / max (H + 0.05) 1e-6 * 0.0)
        / (0.5 + R + 0.05 * H / (H + 0.05)) ≤ 285 := by
      rw [div_le_iff hD]
      nlinarith [mul_nonneg (by linarith : (0:ℝ) ≤ R - 2.48)
        (by linarith : (0:ℝ) ≤ 285 - E)]
    nlinarith [hfrac]

/-- The counterexample iteration never escapes [230, 295.5] once inside. -/
theorem cexIterateBound (s : Surface) (hem : surfEmissivity s = 0.9)
    (hq : s.internal_radiative_flux = 0.0) (tol : ℝ) :
    ∀ (n : ℕ) (T : ℝ), 230 ≤ T → T ≤ 295.5 →
      surfaceTempIterate s 320 300 0.5 0.0 250 0.05 tol n T ≤ 295.5 := by
  intro n
  induction n with
  | zero => intro T _ h2; exact h2
  | succ k ih =>
    intro T h1 h2
    rw [surfaceTempIterate]
    obtain ⟨hs1, hs2⟩ := cexStepBound s hem hq T h1 (by linarith)
    split
    · exact hs2
    · exact ih _ hs1 hs2

/-- Starting from the outdoor temperature 300 K, the counterexample loop ends
strictly below 300 K. -/
theorem cexFinalBound (s : Surface) (hem : surfEmissivity s = 0.9)
    (hq : s.internal_radiative_flux = 0.0) (tol : ℝ) :
    surfaceTempIterate s 320 300 0.5 0.0 250 0.05 tol 30 300 < 300 := by
  show surfaceTempIterate s 320 300 0.5 0.0 250 0.05 tol (29 + 1) 300 < 300
  rw [surfaceTempIterate]
  obtain ⟨hs1, hs2⟩ := cexStepBound s hem hq 300 (by norm_num) (by norm_num)
  split
  · linarith
  · have := cexIterateBound s hem hq tol 29 _ hs1 hs2
    linarith

/-- C2 counterexample: a floor surface with zero absorbed solar and zero
internal flux, outdoor air 300 K strictly below the zone at 320 K (both
inside the solver clamp ranges) — yet the solved exterior temperature drops
strictly below the outdoor air temperature, because the surface radiates to
the 250 K ground environment.  The claimed lower bound `T_out ≤ T_ext`
fails. -/
theorem C2_exterior_drops_below_outdoor :
    cexFloorSurface.internal_radiative_flux = 0 ∧
    surfSolarAbsorptance cexFloorSurface = 0 ∧
    calculate_surface_solar_radiation cexFloorSurface cexColdGroundWeather = 0 ∧
    cexColdGroundWeather.temperature + 273.15 = 300 ∧
    (300:ℝ) < 320 ∧ 200 ≤ (300:ℝ) ∧ (300:ℝ) ≤ 330 ∧
    250 ≤ (320:ℝ) ∧ (320:ℝ) ≤ 330 ∧
    (surfaceSolve defaultHB cexFloorSurface cexColdGroundWeather 320).1 < 300 := by
  have hsolar : calculate_surface_solar_radiation cexFloorSurface
      cexColdGroundWeather = 0 :=
    floor_solar_zero cexFloorSurface cexColdGroundWeather rfl
  refine ⟨by norm_num [cexFloorSurface],
    by norm_num [surfSolarAbsorptance, cexFloorSurface], hsolar,
    by norm_num [cexColdGroundWeather], by norm_num, by norm_num, by norm_num,
    by norm_num, by norm_num, ?_⟩
  have hofl : (pyLower cexFloorSurface.orientation == "floor") = true := by decide
  have htw : cexColdGroundWeather.temperature = 26.85 := rfl
  have ham : cexColdGroundWeather.annual_mean_temperature = some (-23.15) := rfl
  have hz : npClip 320 250.0 330.0 = (320:ℝ) :=
    npClip_eq_self (by norm_num) (by norm_num)
  have hout : npClip (26.85 + 273.15) 200.0 330.0 = (300:ℝ) := by
    rw [show (26.85:ℝ) + 273.15 = 300 from by norm_num]
    exact npClip_eq_self (by norm_num) (by norm_num)
  have hground : (-23.15:ℝ) + 273.15 = 250 := by norm_num
  have hucond : calculate_u_cond cexFloorSurface.construction = 0.05 := by
    rw [show cexFloorSurface.construction = some floorInsCons from rfl]
    simp only [calculate_u_cond, floorInsCons, List.map_cons, List.map_nil,
      List.sum_cons, List.sum_nil, List.isEmpty_cons]
    norm_num [npClip, min_def, max_def]
  have hU : max 0.05 (min (calculate_u_cond cexFloorSurface.construction) 10.0)
      = (0.05:ℝ) := by
    rw [hucond]
    norm_num [min_def, max_def]
  have hbridge : (surfaceSolve defaultHB cexFloorSurface cexColdGroundWeather 320).1
      = surfaceTempIterate cexFloorSurface 320 300 0.5 0.0 250 0.05
          defaultHB.convergence_tolerance 30 300 := by
    simp only [surfaceSolve, hofl, if_true, htw, ham, hz, hout, hU, hground]
  rw [hbridge]
  exact cexFinalBound cexFloorSurface rfl rfl defaultHB.convergence_tolerance

/-! ## Claim C7 -/

/-- The zone component of one inner-loop body is the pure per-hour update,
whether or not results are recorded. -/
theorem hourAdvance_zones (e : SimEngine) (we d : ℤ) (st : EngineState)
    (h : ℕ) :
    (hourAdvance e we d st h).zones = hourZoneUpdate e st.zones (d, h) := by
  simp only [hourAdvance, hourZoneUpdate]
  split <;> rfl

/-- One inner-loop body preserves non-emptiness of the zone list. -/
theorem hourAdvance_zones_ne (e : SimEngine) (we d : ℤ) (st : EngineState)
    (h : ℕ) (hne : st.zones ≠ []) :
    (hourAdvance e we d st h).zones ≠ [] := by
  rw [hourAdvance_zones]
  simp only [hourZoneUpdate]
  simpa using hne

/-- The zone state after an hour fold equals the pure fold of the per-hour
update. -/
theorem hourFold_zones (e : SimEngine) (we d : ℤ) :
    ∀ (hs : List ℕ) (st : EngineState),
      (hs.foldl (hourAdvance e we d) st).zones
        = hs.foldl (fun zs h => hourZoneUpdate e zs (d, h)) st.zones := by
  intro hs
  induction hs with
  | nil => intro st; rfl
  | cons h hs ih =>
    intro st
    rw [List.foldl_cons, List.foldl_cons, ih, hourAdvance_zones]

/-- Rows never disappear during an hour fold. -/
theorem hourFold_loads_mono (e : SimEngine) (we d : ℤ) :
    ∀ (hs : List ℕ) (st : EngineState) (r : LoadRow),
      r ∈ st.results.hourly_loads →
      r ∈ (hs.foldl (hourAdvance e we d) st).results.hourly_loads := by
  intro hs
  induction hs with
  | nil => intro st r hr; exact hr
  | cons h hs ih =>
    intro st r hr
    rw [List.foldl_cons]
    apply ih
    simp only [hourAdvance]
    split
    · exact List.mem_append_left _ hr
    · exact hr

/-- Any load row present after an hour fold was present before, or was
recorded with this day, an hour of the list, and the warm-up test passed. -/
theorem hourFold_loads_mem (e : SimEngine) (we d : ℤ) :
    ∀ (hs : List ℕ) (st : EngineState) (r : LoadRow),
      r ∈ (hs.foldl (hourAdvance e we d) st).results.hourly_loads →
      r ∈ st.results.hourly_loads ∨
        (r.day = d ∧ r.hourOfDay ∈ hs ∧ we ≤ d) := by
  intro hs
  induction hs with
  | nil => intro st r hr; exact Or.inl hr
  | cons h hs ih =>
    intro st r hr
    rw [List.foldl_cons] at hr
    rcases ih _ r hr with h1 | h2
    · by_cases hwe : we ≤ d
      · simp only [hourAdvance, if_pos hwe, storeResults] at h1
        rcases List.mem_append.mp h1 with h3 | h3
        · exact Or.inl h3
        · obtain ⟨z, _, rfl⟩ := List.mem_map.mp h3
          exact Or.inr ⟨rfl, List.mem_cons_self h hs, hwe⟩
      · simp only [hourAdvance, if_neg hwe] at h1
        exact Or.inl h1
    · exact Or.inr ⟨h2.1, List.mem_cons_of_mem h h2.2.1, h2.2.2⟩

/-- Same statement for the zone-temperature table. -/
theorem hourFold_temps_mem (e : SimEngine) (we d : ℤ) :
    ∀ (hs : List ℕ) (st : EngineState) (r : TempRow),
      r ∈ (hs.foldl (hourAdvance e we d) st).results.zone_temperatures →
      r ∈ st.results.zone_temperatures ∨
        (r.day = d ∧ r.hourOfDay ∈ hs ∧ we ≤ d) := by
  intro hs
  induction hs with
  | nil => intro st r hr; exact Or.inl hr
  | cons h hs ih =>
    intro st r hr
    rw [List.foldl_cons] at hr
    rcases ih _ r hr with h1 | h2
    · by_cases hwe : we ≤ d
      · simp only [hourAdvance, if_pos hwe, storeResults] at h1
        rcases List.mem_append.mp h1 with h3 | h3
        · exact Or.inl h3
        · obtain ⟨z, _, rfl⟩ := List.mem_map.mp h3
          exact Or.inr ⟨rfl, List.mem_cons_self h hs, hwe⟩
      · simp only [hourAdvance, if_neg hwe] at h1
        exact Or.inl h1
    · exact Or.inr ⟨h2.1, List.mem_cons_of_mem h h2.2.1, h2.2.2⟩

/-- Same statement for the surface-temperature table. -/
theorem hourFold_surfs_mem (e : SimEngine) (we d : ℤ) :
    ∀ (hs : List ℕ) (st : EngineState) (r : SurfRow),
      r ∈ (hs.foldl (hourAdvance e we d) st).results.surface_temperatures →
      r ∈ st.results.surface_temperatures ∨
        (r.day = d ∧ r.hourOfDay ∈ hs ∧ we ≤ d) := by
  intro hs
  induction hs with
  | nil => intro st r hr; exact Or.inl hr
  | cons h hs ih =>
    intro st r hr
    rw [List.foldl_cons] at hr
    rcases ih _ r hr with h1 | h2
    · by_cases hwe : we ≤ d
      · simp only [hourAdvance, if_pos hwe, storeResults] at h1
        rcases List.mem_append.mp h1 with h3 | h3
        · exact Or.inl h3
        · obtain ⟨z, _, h4⟩ := List.mem_flatMap.mp h3
          obtain ⟨p, _, rfl⟩ := List.mem_map.mp h4
          exact Or.inr ⟨rfl, List.mem_cons_self h hs, hwe⟩
      · simp only [hourAdvance, if_neg hwe] at h1
        exact Or.inl h1
    · exact Or.inr ⟨h2.1, List.mem_cons_of_mem h h2.2.1, h2.2.2⟩

/-- During a warm-up-passed day, every hour of the hour list gets a load row
(one per zone) with exactly that timestamp. -/
theorem hourFold_loads_exists (e : SimEngine) (we d : ℤ) (hwe : we ≤ d) :
    ∀ (hs : List ℕ) (st : EngineState) (h : ℕ), h ∈ hs → st.zones ≠ [] →
      ∃ r ∈ (hs.foldl (hourAdvance e we d) st).results.hourly_loads,
        r.day = d ∧ r.hourOfDay = h := by
  intro hs
  induction hs with
  | nil => intro st h hmem; exact absurd hmem (List.not_mem_nil h)
  | cons h0 hs ih =>
    intro st h hmem hne
    rw [List.foldl_cons]
    rcases List.mem_cons.mp hmem with he | he
    · subst he
      have hzz : (hourAdvance e we d st h).zones
          = (st.zones.map (fun z => calculate_zone_heat_balance e.heat_balance z
              (e.weatherAt d h))).map
            (fun z => calculate_hvac_load e.heat_balance e.hvac_system z
              (e.weatherAt d h)) := by
        simp only [hourAdvance]
        split <;> rfl
      have hz2 : (hourAdvance e we d st h).zones ≠ [] :=
        hourAdvance_zones_ne e we d st h hne
      obtain ⟨z, zs, hz⟩ := List.exists_cons_of_ne_nil hz2
      have hzmem : z ∈ (st.zones.map (fun z =>
          calculate_zone_heat_balance e.heat_balance z (e.weatherAt d h))).map
            (fun z => calculate_hvac_load e.heat_balance e.hvac_system z
              (e.weatherAt d h)) := by
        rw [← hzz, hz]
        exact List.mem_cons_self z zs
      have hrow : ∃ r, r ∈ (hourAdvance e we d st h).results.hourly_loads ∧
          r.day = d ∧ r.hourOfDay = h := by
        simp only [hourAdvance, if_pos hwe, storeResults]
        exact ⟨_, List.mem_append_right _ (List.mem_map_of_mem _ hzmem), rfl, rfl⟩
      obtain ⟨r, hrm, hrd, hrh⟩ := hrow
      exact ⟨r, hourFold_loads_mono e we d hs _ r hrm, hrd, hrh⟩
    · exact ih _ h he (hourAdvance_zones_ne e we d st h0 hne)

/-- A whole day's hour loop preserves non-emptiness of the zone list. -/
theorem hourFold_zones_ne (e : SimEngine) (we d : ℤ) :
    ∀ (hs : List ℕ) (st : EngineState), st.zones ≠ [] →
      (hs.foldl (hourAdvance e we d) st).zones ≠ [] := by
  intro hs
  induction hs with
  | nil => intro st h; exact h
  | cons h0 hs ih =>
    intro st hne
    rw [List.foldl_cons]
    exact ih _ (hourAdvance_zones_ne e we d st h0 hne)

/-- The zone state after the day fold equals the pure nested fold of the
per-hour update, independent of result recording. -/
theorem dayFold_zones (e : SimEngine) (we : ℤ) :
    ∀ (ds : List ℤ) (st : EngineState),
      (ds.foldl (fun st d =>
        (hoursOfDay e.timestep).foldl (hourAdvance e we d) st) st).zones
        = ds.foldl (fun zs d => (hoursOfDay e.timestep).foldl
            (fun zs h => hourZoneUpdate e zs (d, h)) zs) st.zones := by
  intro ds
  induction ds with
  | nil => intro st; rfl
  | cons d ds ih =>
    intro st
    rw [List.foldl_cons, List.foldl_cons, ih, hourFold_zones]

/-- Folding the pure per-hour update over the visited (day, hour) list is the
nested day/hour fold of the pure update. -/
theorem allHours_fold (e : SimEngine) (zs : List Zone) :
    (allHours e).foldl (hourZoneUpdate e) zs
      = (dayRange e.start_date e.end_date).foldl
          (fun zs d => (hoursOfDay e.timestep).foldl
            (fun zs h => hourZoneUpdate e zs (d, h)) zs) zs := by
  show ((dayRange e.start_date e.end_date).flatMap
      (fun d => (hoursOfDay e.timestep).map (fun h => (d, h)))).foldl
        (hourZoneUpdate e) zs = _
  induction dayRange e.start_date e.end_date generalizing zs with
  | nil => rfl
  | cons d ds ih =>
    rw [List.flatMap_cons, List.foldl_append, List.foldl_cons, List.foldl_map,
      ih]

/-- Load rows never disappear during the day fold. -/
theorem dayFold_loads_mono (e : SimEngine) (we : ℤ) :
    ∀ (ds : List ℤ) (st : EngineState) (r : LoadRow),
      r ∈ st.results.hourly_loads →
      r ∈ (ds.foldl (fun st d =>
        (hoursOfDay e.timestep).foldl (hourAdvance e we d) st)
          st).results.hourly_loads := by
  intro ds
  induction ds with
  | nil => intro st r hr; exact hr
  | cons d ds ih =>
    intro st r hr
    rw [List.foldl_cons]
    exact ih _ r (hourFold_loads_mono e we d _ st r hr)

/-- If every load row of the state dates from the warm-up end or later, the
same holds after the whole day fold: no row is ever recorded for a day
strictly before the warm-up end. -/
theorem dayFold_loads_bound (e : SimEngine) (we : ℤ) :
    ∀ (ds : List ℤ) (st : EngineState),
      (∀ r ∈ st.results.hourly_loads, we ≤ r.day) →
      ∀ r ∈ (ds.foldl (fun st d =>
        (hoursOfDay e.timestep).foldl (hourAdvance e we d) st)
          st).results.hourly_loads, we ≤ r.day := by
  intro ds
  induction ds with
  | nil => intro st h; exact h
  | cons d ds ih =>
    intro st hst
    rw [List.foldl_cons]
    apply ih
    intro r hr
    rcases hourFold_loads_mem e we d _ st r hr with h1 | h2
    · exact hst r h1
    · rw [h2.1]; exact h2.2.2

/-- Same warm-up bound for the zone-temperature table. -/
theorem dayFold_temps_bound (e : SimEngine) (we : ℤ) :
    ∀ (ds : List ℤ) (st : EngineState),
      (∀ r ∈ st.results.zone_temperatures, we ≤ r.day) →
      ∀ r ∈ (ds.foldl (fun st d =>
        (hoursOfDay e.timestep).foldl (hourAdvance e we d) st)
          st).results.zone_temperatures, we ≤ r.day := by
  intro ds
  induction ds with
  | nil => intro st h; exact h
  | cons d ds ih =>
    intro st hst
    rw [List.foldl_cons]
    apply ih
    intro r hr
    rcases hourFold_temps_mem e we d _ st r hr with h1 | h2
    · exact hst r h1
    · rw [h2.1]; exact h2.2.2

/-- Same warm-up bound for the surface-temperature table. -/
theorem dayFold_surfs_bound (e : SimEngine) (we : ℤ) :
    ∀ (ds : List ℤ) (st : EngineState),
      (∀ r ∈ st.results.surface_temperatures, we ≤ r.day) →
      ∀ r ∈ (ds.foldl (fun st d =>
        (hoursOfDay e.timestep).foldl (hourAdvance e we d) st)
          st).results.surface_temperatures, we ≤ r.day := by
  intro ds
  induction ds with
  | nil => intro st h; exact h
  | cons d ds ih =>
    intro st hst
    rw [List.foldl_cons]
    apply ih
    intro r hr
    rcases hourFold_surfs_mem e we d _ st r hr with h1 | h2
    · exact hst r h1
    · rw [h2.1]; exact h2.2.2

/-- Every visited hour of a post-warm-up day leaves a load row carrying
exactly that (day, hour) stamp, provided the zone list is non-empty. -/
theorem dayFold_loads_exists (e : SimEngine) (we : ℤ) :
    ∀ (ds : List ℤ) (st : EngineState) (d : ℤ) (h : ℕ),
      d ∈ ds → we ≤ d → h ∈ hoursOfDay e.timestep → st.zones ≠ [] →
      ∃ r ∈ (ds.foldl (fun st d =>
        (hoursOfDay e.timestep).foldl (hourAdvance e we d) st)
          st).results.hourly_loads, r.day = d ∧ r.hourOfDay = h := by
  intro ds
  induction ds with
  | nil => intro st d h hd; exact absurd hd (List.not_mem_nil d)
  | cons d0 ds ih =>
    intro st d h hd hwe hh hne
    rw [List.foldl_cons]
    rcases List.mem_cons.mp hd with he | he
    · subst he
      obtain ⟨r, hrm, hrd, hrh⟩ :=
        hourFold_loads_exists e we d hwe (hoursOfDay e.timestep) st h hh hne
      exact ⟨r, dayFold_loads_mono e we ds _ r hrm, hrd, hrh⟩
    · exact ih _ d h he hwe hh (hourFold_zones_ne e we d0 _ st hne)

/-- C7: in every simulation run, every row of the three result tables (hourly
loads, zone temperatures, surface temperatures) carries a day at or after
`start_date + warmup_days`; the per-hour heat-balance and HVAC computations
still execute during the warm-up hours, since the final zone state is the
pure per-hour update folded over every visited (day, hour), warm-up included;
and recording starts exactly at the warm-up end: once the zone list is
non-empty, every visited hour of every day at or after
`start_date + warmup_days` has a load row stamped with that day and hour. -/
theorem C7_warmup_gates_recording (e : SimEngine) (init_zones : List Zone) :
    (∀ r ∈ (run_simulation e init_zones).results.hourly_loads,
        e.start_date + e.warmup_days ≤ r.day) ∧
    (∀ r ∈ (run_simulation e init_zones).results.zone_temperatures,
        e.start_date + e.warmup_days ≤ r.day) ∧
    (∀ r ∈ (run_simulation e init_zones).results.surface_temperatures,
        e.start_date + e.warmup_days ≤ r.day) ∧
    (run_simulation e init_zones).zones
        = (allHours e).foldl (hourZoneUpdate e) init_zones ∧
    (init_zones ≠ [] →
      ∀ d ∈ dayRange e.start_date e.end_date,
        e.start_date + e.warmup_days ≤ d →
        ∀ h ∈ hoursOfDay e.timestep,
          ∃ r ∈ (run_simulation e init_zones).results.hourly_loads,
            r.day = d ∧ r.hourOfDay = h) := by
  have hrs : run_simulation e init_zones
      = (dayRange e.start_date e.end_date).foldl
          (fun st d => (hoursOfDay e.timestep).foldl
            (hourAdvance e (e.start_date + e.warmup_days) d) st)
          { zones := init_zones } := rfl
  refine ⟨?_, ?_, ?_, ?_, ?_⟩
  · rw [hrs]
    exact dayFold_loads_bound e _ _ _ (fun r hr => absurd hr (List.not_mem_nil r))
  · rw [hrs]
    exact dayFold_temps_bound e _ _ _ (fun r hr => absurd hr (List.not_mem_nil r))
  · rw [hrs]
    exact dayFold_surfs_bound e _ _ _ (fun r hr => absurd hr (List.not_mem_nil r))
  · rw [hrs, dayFold_zones, allHours_fold]
  · intro hne d hd hwe h hh
    rw [hrs]
    exact dayFold_loads_exists e _ _ _ d h hd hwe hh hne

end RadSim
